import Mathlib

/-!
Shallow embedding of the chat-bot runtime core (update store, approval
engine, audit chain, rate limiter, agent turn executor, response policy,
risk policy, callback tokens) together with theorems settling the frozen
claims about the natural-language specification.

Conventions of the embedding:
- TypeScript objects become Lean structures; the database tables become
  lists of row structures threaded explicitly through the operations.
- JavaScript timestamps (Date.now, new Date) are modeled as a Nat epoch
  value in milliseconds passed in explicitly.
- Machine numbers used for hashing are Nat with explicit reduction
  modulo 2 ^ 32.
- Fallible operations return Except or Option; a function that catches
  every error in the source is total here.
-/

namespace Spec2Proof

/-! ## Update store (src/src/db/queries/updates.ts) -/

/-- A row of the processed_updates table: the idempotency record for one
inbound transport update. -/
structure ProcessedUpdateRow where
  telegramUpdateId : String
  status : String
  handledAt : Option Nat
  error : Option String
deriving DecidableEq, Repr

/-- Input of markProcessedUpdateStatus. -/
structure MarkStatusInput where
  updateId : Nat
  status : String
  error : Option String
deriving DecidableEq, Repr

/-- markProcessedUpdateStatus: an unconditional UPDATE of status,
handledAt and error on the row whose telegramUpdateId matches; handledAt
is the current time for processed and failed and NULL otherwise. The
source has no guard on the current status of the row. -/
def markProcessedUpdateStatus (db : List ProcessedUpdateRow)
    (input : MarkStatusInput) (nowMs : Nat) : List ProcessedUpdateRow :=
  db.map fun row =>
    if row.telegramUpdateId = toString input.updateId then
      { row with
        status := input.status
        handledAt :=
          if input.status = "processed" ∨ input.status = "failed" then
            some nowMs
          else
            none
        error := input.error }
    else row

/-! ## Theorems for claim C9 -/

/-- C9 counterexample: the claim says a row in status processed is never
transitioned back to received by any call of markProcessedUpdateStatus;
but the UPDATE is unconditional, so calling it with status received on a
processed row does exactly that transition. -/
theorem c9_processed_row_reverts_to_received :
    markProcessedUpdateStatus
      [{ telegramUpdateId := "42", status := "processed",
         handledAt := some 5, error := none }]
      { updateId := 42, status := "received", error := none } 9 =
      [{ telegramUpdateId := "42", status := "received",
         handledAt := none, error := none }] := by
  decide

/-- C9 (amended): markProcessedUpdateStatus is idempotent at a fixed
timestamp, and it overwrites the status of every matching row with the
requested status unconditionally — in particular it does not itself
prevent the processed-to-received transition; monotonicity is a property
of its callers, not of the function. -/
theorem c9_mark_status_idempotent_and_unconditional
    (db : List ProcessedUpdateRow) (input : MarkStatusInput) (nowMs : Nat) :
    markProcessedUpdateStatus (markProcessedUpdateStatus db input nowMs)
        input nowMs =
      markProcessedUpdateStatus db input nowMs ∧
    ∀ row ∈ markProcessedUpdateStatus db input nowMs,
      row.telegramUpdateId = toString input.updateId →
        row.status = input.status := by
  constructor
  · simp only [markProcessedUpdateStatus, List.map_map]
    apply List.map_congr_left
    intro row _
    by_cases h : row.telegramUpdateId = toString input.updateId
    · simp [h]
    · simp [h]
  · intro row hmem hid
    simp only [markProcessedUpdateStatus, List.mem_map] at hmem
    obtain ⟨src, _, hsrc⟩ := hmem
    by_cases h : src.telegramUpdateId = toString input.updateId
    · simp [h] at hsrc
      simp [← hsrc]
    · simp [h] at hsrc
      rw [← hsrc] at hid
      exact absurd hid h

/-- Closed witness for the amended C9 theorem at a concrete database,
with the membership and key hypotheses discharged concretely. -/
theorem c9_mark_status_idempotent_and_unconditional_witness :
    markProcessedUpdateStatus
        (markProcessedUpdateStatus
          [{ telegramUpdateId := "7", status := "enqueued",
             handledAt := none, error := none }]
          { updateId := 7, status := "processed", error := none } 3)
        { updateId := 7, status := "processed", error := none } 3 =
      markProcessedUpdateStatus
        [{ telegramUpdateId := "7", status := "enqueued",
           handledAt := none, error := none }]
        { updateId := 7, status := "processed", error := none } 3 ∧
    ({ telegramUpdateId := "7", status := "processed",
       handledAt := some 3, error := none } : ProcessedUpdateRow).status =
      "processed" :=
  ⟨(c9_mark_status_idempotent_and_unconditional
      [{ telegramUpdateId := "7", status := "enqueued",
         handledAt := none, error := none }]
      { updateId := 7, status := "processed", error := none } 3).1,
   (c9_mark_status_idempotent_and_unconditional
      [{ telegramUpdateId := "7", status := "enqueued",
         handledAt := none, error := none }]
      { updateId := 7, status := "processed", error := none } 3).2
     { telegramUpdateId := "7", status := "processed",
       handledAt := some 3, error := none } (by decide) (by decide)⟩

/-! ## Approval engine
(src/unnamed/part_006 service and the tool_approvals query layer embedded
from the file holding updateToolApprovalDecision and
expirePendingApproval). The audit append performed by decideApproval
writes to the audit_events store (modeled separately below) and never
touches the tool_approvals table, so the approvals store alone is
threaded here. -/

/-- A row of the tool_approvals table (the fields the lifecycle
operations read or write). -/
structure ToolApprovalRow where
  approvalId : String
  status : String
  expiresAt : Nat
  decidedBy : Option String
  decidedAt : Option Nat
  reason : Option String
deriving DecidableEq, Repr

/-- getToolApproval: SELECT by approvalId. -/
def getToolApproval (db : List ToolApprovalRow) (approvalId : String) :
    Option ToolApprovalRow :=
  db.find? (fun row => row.approvalId = approvalId)

/-- Input of updateToolApprovalDecision. -/
structure UpdateDecisionInput where
  approvalId : String
  status : String
  decidedBy : String
  reason : Option String
deriving DecidableEq, Repr

/-- updateToolApprovalDecision: UPDATE status, decidedBy, decidedAt (and
reason when given) WHERE approvalId matches, RETURNING the row. -/
def updateToolApprovalDecision (db : List ToolApprovalRow)
    (input : UpdateDecisionInput) (nowMs : Nat) :
    List ToolApprovalRow × Option ToolApprovalRow :=
  let db2 := db.map fun row =>
    if row.approvalId = input.approvalId then
      { row with
        status := input.status
        decidedBy := some input.decidedBy
        decidedAt := some nowMs
        reason :=
          match input.reason with
          | some r => some r
          | none => row.reason }
    else row
  (db2, db2.find? (fun row => row.approvalId = input.approvalId))

/-- expirePendingApproval: UPDATE to status expired WHERE approvalId
matches AND status = requested, RETURNING the row. -/
def expirePendingApproval (db : List ToolApprovalRow) (approvalId : String)
    (nowMs : Nat) : List ToolApprovalRow × Option ToolApprovalRow :=
  let db2 := db.map fun row =>
    if row.approvalId = approvalId ∧ row.status = "requested" then
      { row with
        status := "expired"
        reason := some "Approval expired"
        decidedAt := some nowMs
        decidedBy := some "system" }
    else row
  (db2,
    db2.find? (fun row =>
      row.approvalId = approvalId ∧ row.status = "expired"))

/-- Input of decideApproval. -/
structure DecideApprovalInput where
  approvalId : String
  approved : Bool
  decidedBy : String
  reason : Option String
deriving DecidableEq, Repr

/-- Result value of decideApproval. -/
structure DecideApprovalResult where
  ok : Bool
  reason : Option String
  approval : Option ToolApprovalRow
deriving DecidableEq, Repr

/-- decideApproval: reject on a missing record, on a record whose status
is not requested, and on an expired record (expiring it); otherwise
transition to approved or denied with decider and timestamp. -/
def decideApproval (db : List ToolApprovalRow) (input : DecideApprovalInput)
    (nowMs : Nat) : DecideApprovalResult × List ToolApprovalRow :=
  match getToolApproval db input.approvalId with
  | none =>
      ({ ok := false, reason := some "Approval not found.",
         approval := none }, db)
  | some current =>
      if current.status ≠ "requested" then
        ({ ok := false,
           reason := some ("Approval already " ++ current.status ++ "."),
           approval := none }, db)
      else if current.expiresAt < nowMs then
        let expired := expirePendingApproval db current.approvalId nowMs
        ({ ok := false, reason := some "Approval already expired.",
           approval := none }, expired.1)
      else
        let status := if input.approved then "approved" else "denied"
        let updated := updateToolApprovalDecision db
          { approvalId := input.approvalId, status := status,
            decidedBy := input.decidedBy, reason := input.reason } nowMs
        ({ ok := true, reason := none,
           approval := some (updated.2.getD current) }, updated.1)

/-! ## Theorems for claim C1 -/

/-- C1: approval terminality. If the stored approval has a terminal
status (approved, denied, expired or failed), decideApproval returns a
failure whose reason is the string "Approval already " followed by that
status and a period, and leaves the approvals store unchanged; and
expirePendingApproval changes a row only when that row is in status
requested (every position whose row it changes held a requested row). -/
theorem c1_approval_terminality
    (db : List ToolApprovalRow) (input : DecideApprovalInput) (nowMs : Nat)
    (current : ToolApprovalRow)
    (hfound : getToolApproval db input.approvalId = some current)
    (hterminal : current.status = "approved" ∨ current.status = "denied" ∨
      current.status = "expired" ∨ current.status = "failed") :
    ((decideApproval db input nowMs).1.ok = false ∧
      (decideApproval db input nowMs).1.reason =
        some ("Approval already " ++ current.status ++ ".") ∧
      (decideApproval db input nowMs).2 = db) ∧
    ∀ (db2 : List ToolApprovalRow) (approvalId : String) (t : Nat) (i : Nat),
      (expirePendingApproval db2 approvalId t).1[i]? ≠ db2[i]? →
        ∃ row, db2[i]? = some row ∧ row.status = "requested" := by
  constructor
  · have hne : current.status ≠ "requested" := by
      rcases hterminal with h | h | h | h <;> simp [h]
    simp [decideApproval, hfound, hne]
  · intro db2 approvalId t i hdiff
    simp only [expirePendingApproval, List.getElem?_map] at hdiff
    cases hrow : db2[i]? with
    | none => rw [hrow] at hdiff; simp at hdiff
    | some row =>
        rw [hrow] at hdiff
        refine ⟨row, rfl, ?_⟩
        by_contra hreq
        apply hdiff
        have hnot : ¬(row.approvalId = approvalId ∧ row.status = "requested") := by
          intro hc
          exact hreq hc.2
        simp [hnot]

/-- Closed witness for C1 at a concrete store holding a denied approval. -/
theorem c1_approval_terminality_witness :
    ((decideApproval
        [{ approvalId := "ap1", status := "denied", expiresAt := 100,
           decidedBy := some "u", decidedAt := some 50, reason := none }]
        { approvalId := "ap1", approved := true, decidedBy := "u2",
          reason := none } 60).1.ok = false ∧
      (decideApproval
        [{ approvalId := "ap1", status := "denied", expiresAt := 100,
           decidedBy := some "u", decidedAt := some 50, reason := none }]
        { approvalId := "ap1", approved := true, decidedBy := "u2",
          reason := none } 60).1.reason =
        some ("Approval already " ++ "denied" ++ ".") ∧
      (decideApproval
        [{ approvalId := "ap1", status := "denied", expiresAt := 100,
           decidedBy := some "u", decidedAt := some 50, reason := none }]
        { approvalId := "ap1", approved := true, decidedBy := "u2",
          reason := none } 60).2 =
        [{ approvalId := "ap1", status := "denied", expiresAt := 100,
           decidedBy := some "u", decidedAt := some 50, reason := none }]) ∧
    ∃ row,
      ([{ approvalId := "x", status := "requested", expiresAt := 0,
          decidedBy := none, decidedAt := none,
          reason := none }] : List ToolApprovalRow)[0]? = some row ∧
        row.status = "requested" :=
  ⟨(c1_approval_terminality
      [{ approvalId := "ap1", status := "denied", expiresAt := 100,
         decidedBy := some "u", decidedAt := some 50, reason := none }]
      { approvalId := "ap1", approved := true, decidedBy := "u2",
        reason := none } 60
      { approvalId := "ap1", status := "denied", expiresAt := 100,
        decidedBy := some "u", decidedAt := some 50, reason := none }
      (by decide) (Or.inr (Or.inl rfl))).1,
   (c1_approval_terminality
      [{ approvalId := "ap1", status := "denied", expiresAt := 100,
         decidedBy := some "u", decidedAt := some 50, reason := none }]
      { approvalId := "ap1", approved := true, decidedBy := "u2",
        reason := none } 60
      { approvalId := "ap1", status := "denied", expiresAt := 100,
        decidedBy := some "u", decidedAt := some 50, reason := none }
      (by decide) (Or.inr (Or.inl rfl))).2
     [{ approvalId := "x", status := "requested", expiresAt := 0,
        decidedBy := none, decidedAt := none, reason := none }]
     "x" 5 0 (by decide)⟩

/-! ## Approval callback tokens (src/unnamed/part_006)
createApprovalCallbackToken draws 7 random bytes, encodes them with the
node base64url encoding (no padding), strips every character outside
[a-zA-Z0-9_-] and slices to the first 14 characters. The randomness is
made explicit: the function takes the 7 bytes as an argument. -/

/-- The base64url alphabet in encoding order. -/
def BASE64URL_ALPHABET : List Char :=
  "ABCDEFGHIJKLMNOPQRSTUVWXYZabcdefghijklmnopqrstuvwxyz0123456789-_".data

/-- The alphabet character of a 6-bit group. -/
def b64Char (n : Nat) : Char := BASE64URL_ALPHABET.getD (n % 64) 'A'

/-- Padding-free base64url encoding of a byte list, as node produces it
for Buffer.toString with the base64url encoding. -/
def base64urlEncode : List Nat → List Char
  | [] => []
  | [b0] =>
      [b64Char (b0 % 256 / 4), b64Char (b0 % 4 * 16)]
  | [b0, b1] =>
      [b64Char (b0 % 256 / 4), b64Char (b0 % 4 * 16 + b1 % 256 / 16),
       b64Char (b1 % 16 * 4)]
  | b0 :: b1 :: b2 :: rest =>
      b64Char (b0 % 256 / 4) ::
      b64Char (b0 % 4 * 16 + b1 % 256 / 16) ::
      b64Char (b1 % 16 * 4 + b2 % 256 / 64) ::
      b64Char (b2 % 64) :: base64urlEncode rest

/-- The character class kept by the replace step: [a-zA-Z0-9_-]. -/
def jsUrlSafe (c : Char) : Bool :=
  (97 ≤ c.toNat && c.toNat ≤ 122) || (65 ≤ c.toNat && c.toNat ≤ 90) ||
    (48 ≤ c.toNat && c.toNat ≤ 57) || c = '_' || c = '-'

/-- createApprovalCallbackToken over the 7 random bytes it consumes. -/
def createApprovalCallbackToken (bytes : List Nat) : String :=
  ⟨((base64urlEncode bytes).filter jsUrlSafe).take 14⟩

theorem jsUrlSafe_b64Char (n : Nat) : jsUrlSafe (b64Char n) = true := by
  have h64 : ∀ i : Fin 64, jsUrlSafe (BASE64URL_ALPHABET.getD i.val 'A') = true := by
    decide
  exact h64 ⟨n % 64, Nat.mod_lt _ (by norm_num)⟩

theorem base64urlEncode_length :
    ∀ l : List Nat, (base64urlEncode l).length = (l.length * 4 + 2) / 3
  | [] => by simp [base64urlEncode]
  | [b0] => by simp [base64urlEncode]
  | [b0, b1] => by simp [base64urlEncode]
  | b0 :: b1 :: b2 :: rest => by
      have ih := base64urlEncode_length rest
      simp only [base64urlEncode, List.length_cons, ih]
      omega

theorem base64urlEncode_filter :
    ∀ l : List Nat, (base64urlEncode l).filter jsUrlSafe = base64urlEncode l
  | [] => by simp [base64urlEncode]
  | [b0] => by
      simp [base64urlEncode, List.filter_cons, jsUrlSafe_b64Char]
  | [b0, b1] => by
      simp [base64urlEncode, List.filter_cons, jsUrlSafe_b64Char]
  | b0 :: b1 :: b2 :: rest => by
      have ih := base64urlEncode_filter rest
      simp [base64urlEncode, List.filter_cons, jsUrlSafe_b64Char, ih]

/-! ## Theorems for claim C7 -/

/-- C7 (code bug): for every 7-byte random input, the generated callback
token has exactly 10 characters, strictly fewer than the 14-character
minimum the specification requires (base64url of 7 bytes is 10
characters, so the slice to 14 and the character filter change
nothing). -/
theorem c7_callback_token_is_ten_chars
    (bytes : List Nat) (h : bytes.length = 7) :
    (createApprovalCallbackToken bytes).length = 10 ∧
      (createApprovalCallbackToken bytes).length < 14 := by
  have hlen : (createApprovalCallbackToken bytes).length = 10 := by
    show (((base64urlEncode bytes).filter jsUrlSafe).take 14).length = 10
    rw [base64urlEncode_filter, List.length_take, base64urlEncode_length, h]
    decide
  exact ⟨hlen, by omega⟩

/-- Closed witness for C7 at a concrete 7-byte input. -/
theorem c7_callback_token_is_ten_chars_witness :
    (createApprovalCallbackToken [0, 1, 2, 3, 4, 5, 6]).length = 10 ∧
      (createApprovalCallbackToken [0, 1, 2, 3, 4, 5, 6]).length < 14 :=
  c7_callback_token_is_ten_chars [0, 1, 2, 3, 4, 5, 6] (by decide)

/-! ## A JSON value model and the JSON.stringify serialization
Metadata payloads and tool inputs are structured documents; objects keep
their insertion order, exactly as JavaScript objects do. Numbers carry
the rational value the program sees (every JavaScript float is a finite
decimal, so a Rat holds it exactly). -/

inductive Json where
  | null
  | bool (b : Bool)
  | num (q : Rat)
  | str (s : String)
  | arr (items : List Json)
  | obj (entries : List (String × Json))
deriving Repr

/-- Left-pad a digit string with zeros to the given width. -/
def padZeros (width : Nat) (s : String) : String :=
  if s.length < width then
    ⟨List.replicate (width - s.length) '0'⟩ ++ s
  else s

/-- Smallest exponent k ≤ 60 such that q times 10 ^ k is integral (the
denominator of the reduced q divides 10 ^ k); JavaScript floats are
dyadic rationals, so for every value the program handles such a k exists
well inside the fuel. -/
def ratDecExponent (q : Rat) : Nat :=
  ((List.range 61).find? (fun k => 10 ^ k % q.den = 0)).getD 60

/-- The decimal rendering JSON.stringify gives a number: an integer
prints without a point, anything else prints its exact finite decimal
expansion with no trailing zeros. -/
def ratDecimalString (q : Rat) : String :=
  let k := ratDecExponent q
  let n := q.num * 10 ^ k / (q.den : Int)
  let sign := if n < 0 then "-" else ""
  let digits := n.natAbs
  if k = 0 then
    sign ++ toString digits
  else
    let intPart := digits / 10 ^ k
    let fracPart := digits % 10 ^ k
    sign ++ toString intPart ++ "." ++ padZeros k (toString fracPart)

/-- One hexadecimal digit. -/
def hexDigit (n : Nat) : Char :=
  "0123456789abcdef".data.getD (n % 16) '0'

/-- JSON string escaping as JSON.stringify performs it. -/
def jsonEscapeChar (c : Char) : List Char :=
  if c = '"' then ['\\', '"']
  else if c = '\\' then ['\\', '\\']
  else if c = '\n' then ['\\', 'n']
  else if c = '\r' then ['\\', 'r']
  else if c = '\t' then ['\\', 't']
  else if c.toNat = 8 then ['\\', 'b']
  else if c.toNat = 12 then ['\\', 'f']
  else if c.toNat < 32 then
    ['\\', 'u', '0', '0', hexDigit (c.toNat / 16), hexDigit c.toNat]
  else [c]

/-- A JSON string literal with its surrounding quotes. -/
def jsonQuote (s : String) : String :=
  "\"" ++ ⟨s.data.flatMap jsonEscapeChar⟩ ++ "\""

mutual

/-- JSON.stringify with no spacing: object keys stay in insertion
order. -/
def jsonStringify : Json → String
  | .null => "null"
  | .bool true => "true"
  | .bool false => "false"
  | .num q => ratDecimalString q
  | .str s => jsonQuote s
  | .arr items => "[" ++ stringifyArrItems items ++ "]"
  | .obj entries => "\x7b" ++ stringifyObjEntries entries ++ "\x7d"

def stringifyArrItems : List Json → String
  | [] => ""
  | [x] => jsonStringify x
  | x :: y :: rest => jsonStringify x ++ "," ++ stringifyArrItems (y :: rest)

def stringifyObjEntries : List (String × Json) → String
  | [] => ""
  | [(k, v)] => jsonQuote k ++ ":" ++ jsonStringify v
  | (k, v) :: e :: rest =>
      jsonQuote k ++ ":" ++ jsonStringify v ++ "," ++
        stringifyObjEntries (e :: rest)

end

/-! ## SHA-256 over byte lists, executable (FIPS 180-4) -/

/-- 32-bit truncation. -/
def w32 (n : Nat) : Nat := n % 4294967296

/-- 32-bit right rotation. -/
def rotr32 (x n : Nat) : Nat :=
  w32 ((x >>> n) ||| (x <<< (32 - n)))

/-- The 64 SHA-256 round constants. -/
def SHA256_K : List Nat :=
  [1116352408, 1899447441, 3049323471,
   3921009573, 961987163, 1508970993,
   2453635748, 2870763221, 3624381080,
   310598401, 607225278, 1426881987,
   1925078388, 2162078206, 2614888103,
   3248222580, 3835390401, 4022224774,
   264347078, 604807628, 770255983,
   1249150122, 1555081692, 1996064986,
   2554220882, 2821834349, 2952996808,
   3210313671, 3336571891, 3584528711,
   113926993, 338241895, 666307205,
   773529912, 1294757372, 1396182291,
   1695183700, 1986661051, 2177026350,
   2456956037, 2730485921, 2820302411,
   3259730800, 3345764771, 3516065817,
   3600352804, 4094571909, 275423344,
   430227734, 506948616, 659060556,
   883997877, 958139571, 1322822218,
   1537002063, 1747873779, 1955562222,
   2024104815, 2227730452, 2361852424,
   2428436474, 2756734187, 3204031479,
   3329325298]

/-- Initial SHA-256 state. -/
def SHA256_H0 : List Nat :=
  [1779033703, 3144134277, 1013904242,
   2773480762, 1359893119, 2600822924,
   528734635, 1541459225]

/-- Big-endian 8-byte rendering of a length in bits. -/
def be64Bytes (n : Nat) : List Nat :=
  [n >>> 56 % 256, n >>> 48 % 256, n >>> 40 % 256, n >>> 32 % 256,
   n >>> 24 % 256, n >>> 16 % 256, n >>> 8 % 256, n % 256]

/-- SHA-256 message padding. -/
def sha256Pad (msg : List Nat) : List Nat :=
  let len := msg.length
  let zeros := (119 - len % 64) % 64
  msg ++ [128] ++ List.replicate zeros 0 ++ be64Bytes (len * 8)

/-- Big-endian 32-bit words of a byte list. -/
def bytesToWords : List Nat → List Nat
  | b0 :: b1 :: b2 :: b3 :: rest =>
      (b0 <<< 24 ||| b1 <<< 16 ||| b2 <<< 8 ||| b3) :: bytesToWords rest
  | _ => []

/-- Extend the 16 block words into the 64 schedule words. -/
def sha256Schedule (block : List Nat) : List Nat :=
  (List.range 48).foldl
    (fun ws _ =>
      let n := ws.length
      let w15 := ws.getD (n - 15) 0
      let w2 := ws.getD (n - 2) 0
      let s0 := rotr32 w15 7 ^^^ rotr32 w15 18 ^^^ (w15 >>> 3)
      let s1 := rotr32 w2 17 ^^^ rotr32 w2 19 ^^^ (w2 >>> 10)
      ws ++ [w32 (ws.getD (n - 16) 0 + s0 + ws.getD (n - 7) 0 + s1)])
    block

/-- One SHA-256 compression round. -/
def sha256Round (state : List Nat) (kw : Nat × Nat) : List Nat :=
  match state with
  | [a, b, c, d, e, f, g, h] =>
      let s1 := rotr32 e 6 ^^^ rotr32 e 11 ^^^ rotr32 e 25
      let ch := (e &&& f) ^^^ ((4294967295 - e) &&& g)
      let temp1 := w32 (h + s1 + ch + kw.1 + kw.2)
      let s0 := rotr32 a 2 ^^^ rotr32 a 13 ^^^ rotr32 a 22
      let maj := (a &&& b) ^^^ (a &&& c) ^^^ (b &&& c)
      let temp2 := w32 (s0 + maj)
      [w32 (temp1 + temp2), a, b, c, w32 (d + temp1), e, f, g]
  | other => other

/-- Compress one 64-byte block into the running hash state. -/
def sha256Block (state : List Nat) (block : List Nat) : List Nat :=
  let ws := sha256Schedule (bytesToWords block)
  let final := (SHA256_K.zip ws).foldl sha256Round state
  (state.zip final).map (fun p => w32 (p.1 + p.2))

/-- Split a byte list into 64-byte blocks; the fuel is structural and
any fuel at least the list length gives the full split. -/
def chunk64Fuel : Nat → List Nat → List (List Nat)
  | _, [] => []
  | 0, _ :: _ => []
  | fuel + 1, b :: rest =>
      (b :: rest).take 64 :: chunk64Fuel fuel ((b :: rest).drop 64)

/-- Split a byte list into 64-byte blocks. -/
def chunk64 (bytes : List Nat) : List (List Nat) :=
  chunk64Fuel bytes.length bytes

/-- SHA-256 digest of a byte list, as 32 bytes. -/
def sha256Bytes (msg : List Nat) : List Nat :=
  let finalState := (chunk64 (sha256Pad msg)).foldl sha256Block SHA256_H0
  finalState.flatMap (fun word =>
    [word >>> 24 % 256, word >>> 16 % 256, word >>> 8 % 256, word % 256])

/-- Lowercase hex rendering of a byte list, as node digest("hex"). -/
def bytesToHex (bytes : List Nat) : String :=
  ⟨bytes.flatMap (fun b => [hexDigit (b / 16), hexDigit b])⟩

/-- UTF-8 bytes of a character. -/
def utf8EncodeChar (c : Char) : List Nat :=
  let n := c.toNat
  if n < 128 then [n]
  else if n < 2048 then [192 + n / 64, 128 + n % 64]
  else if n < 65536 then
    [224 + n / 4096, 128 + n / 64 % 64, 128 + n % 64]
  else
    [240 + n / 262144, 128 + n / 4096 % 64, 128 + n / 64 % 64, 128 + n % 64]

/-- UTF-8 bytes of a string. -/
def strUtf8Bytes (s : String) : List Nat :=
  s.data.flatMap utf8EncodeChar

/-- SHA-256 hex digest of a string, as createHash("sha256") produces. -/
def sha256HexOfString (s : String) : String :=
  bytesToHex (sha256Bytes (strUtf8Bytes s))

/-! ## Audit chain (src/unnamed/part_010 createAuditHash and
src/src/db/queries/audit.ts appendAuditEvent). The audit_events table is
modeled as a list in insertion order, so the most recent event (the one
the source selects by createdAt descending, limit 1) is the last
element. -/

/-- createAuditHash: SHA-256 hex of JSON.stringify of the object literal
with its keys in the insertion order previousHash, eventType, metadata,
createdAtIso, the metadata serialized as-is. -/
def createAuditHash (previousHash : Option String) (eventType : String)
    (metadata : Json) (createdAtIso : String) : String :=
  sha256HexOfString (jsonStringify (Json.obj
    [("previousHash",
        match previousHash with
        | some h => Json.str h
        | none => Json.null),
     ("eventType", Json.str eventType),
     ("metadata", metadata),
     ("createdAtIso", Json.str createdAtIso)]))

/-- Lexicographic order on character lists by code point. -/
def charListLe : List Char → List Char → Bool
  | [], _ => true
  | a :: as, bs =>
      match bs with
      | [] => false
      | b :: rest =>
          if a.toNat < b.toNat then true
          else if b.toNat < a.toNat then false
          else charListLe as rest

/-- Lexicographic order on strings. -/
def strLe (a b : String) : Bool := charListLe a.data b.data

/-- Insertion sort of object entries by key, used only by the
spec-described canonical serialization below. -/
def insertByKey (kv : String × Json) :
    List (String × Json) → List (String × Json)
  | [] => [kv]
  | e :: rest =>
      if strLe kv.1 e.1 then kv :: e :: rest else e :: insertByKey kv rest

/-- Sort object entries by key. -/
def sortEntriesByKey (entries : List (String × Json)) :
    List (String × Json) :=
  entries.foldr insertByKey []

mutual

/-- Recursively sort every object's keys, the canonicalization of
metadata the specification describes. -/
def canonicalizeJson : Json → Json
  | .null => .null
  | .bool b => .bool b
  | .num q => .num q
  | .str s => .str s
  | .arr items => .arr (canonicalizeJsonList items)
  | .obj entries => .obj (sortEntriesByKey (canonicalizeJsonEntries entries))

def canonicalizeJsonList : List Json → List Json
  | [] => []
  | x :: rest => canonicalizeJson x :: canonicalizeJsonList rest

def canonicalizeJsonEntries : List (String × Json) → List (String × Json)
  | [] => []
  | (k, v) :: rest => (k, canonicalizeJson v) :: canonicalizeJsonEntries rest

end

/-- The audit hash exactly as the specification words it, for the
refinement comparison: SHA-256 of the JSON serialization of
previousHash, eventType, metadata and createdAtIso with object keys in
lexicographic order (createdAtIso, eventType, metadata, previousHash)
and the metadata canonicalized by sorting object keys. -/
def createAuditHashSpecCanonical (previousHash : Option String)
    (eventType : String) (metadata : Json) (createdAtIso : String) : String :=
  sha256HexOfString (jsonStringify (Json.obj
    [("createdAtIso", Json.str createdAtIso),
     ("eventType", Json.str eventType),
     ("metadata", canonicalizeJson metadata),
     ("previousHash",
        match previousHash with
        | some h => Json.str h
        | none => Json.null)]))

/-- Input of appendAuditEvent. -/
structure AuditEventInput where
  actorType : String
  actorId : String
  eventType : String
  metadata : Json
  correlationId : String

/-- A stored row of the audit_events table. -/
structure AuditEventRow where
  actorType : String
  actorId : String
  eventType : String
  metadata : Json
  correlationId : String
  createdAtIso : String
  hashChain : String

/-- appendAuditEvent: read the most recent hash_chain (null when the log
is empty), compute the new chain hash at the current timestamp, insert
the new row. -/
def appendAuditEvent (log : List AuditEventRow) (event : AuditEventInput)
    (createdAtIso : String) : List AuditEventRow :=
  log ++ [{ actorType := event.actorType
            actorId := event.actorId
            eventType := event.eventType
            metadata := event.metadata
            correlationId := event.correlationId
            createdAtIso := createdAtIso
            hashChain := createAuditHash
              (log.getLast?.map (fun row => row.hashChain)) event.eventType
              event.metadata createdAtIso }]

/-- An audit log built by a sequence of appends, each with its insert
timestamp. -/
def buildAuditLog (events : List (AuditEventInput × String)) :
    List AuditEventRow :=
  events.foldl (fun log e => appendAuditEvent log e.1 e.2) []

/-- Placeholder row for positional lookups. -/
def defaultAuditRow : AuditEventRow :=
  { actorType := "", actorId := "", eventType := "", metadata := Json.null,
    correlationId := "", createdAtIso := "", hashChain := "" }

/-- The chain integrity property: every stored hash_chain is the audit
hash of the previous row's hash_chain (none for the first row) together
with the row's own eventType, metadata and createdAtIso. -/
def auditChainValid (log : List AuditEventRow) : Prop :=
  ∀ i, i < log.length →
    (log.getD i defaultAuditRow).hashChain =
      createAuditHash
        (if i = 0 then none
         else some ((log.getD (i - 1) defaultAuditRow).hashChain))
        (log.getD i defaultAuditRow).eventType
        (log.getD i defaultAuditRow).metadata
        (log.getD i defaultAuditRow).createdAtIso

theorem getD_append_left {α : Type} (l : List α) (x : α) (i : Nat) (d : α)
    (h : i < l.length) : (l ++ [x]).getD i d = l.getD i d := by
  simp only [List.getD_eq_getElem?_getD]
  rw [List.getElem?_append_left h]

theorem getD_append_last {α : Type} (l : List α) (x : α) (d : α) :
    (l ++ [x]).getD l.length d = x := by
  simp [List.getD_eq_getElem?_getD, List.getElem?_append_right]

theorem append_row_preserves (log : List AuditEventRow)
    (row : AuditEventRow)
    (hrow : row.hashChain =
      createAuditHash (log.getLast?.map (fun r => r.hashChain))
        row.eventType row.metadata row.createdAtIso)
    (h : auditChainValid log) : auditChainValid (log ++ [row]) := by
  intro i hi
  simp only [List.length_append, List.length_cons, List.length_nil] at hi
  by_cases hlt : i < log.length
  · have h2 : i - 1 < log.length := lt_of_le_of_lt (Nat.sub_le i 1) hlt
    rw [getD_append_left _ _ _ _ hlt, getD_append_left _ _ _ _ h2]
    exact h i hlt
  · have hie : i = log.length := by omega
    subst hie
    rw [getD_append_last]
    by_cases hnil : log = []
    · subst hnil
      simpa using hrow
    · have hne : log.length ≠ 0 := by
        simpa [List.length_eq_zero] using hnil
      rw [if_neg hne]
      have hlen : log.length - 1 < log.length :=
        Nat.sub_lt (Nat.pos_of_ne_zero hne) Nat.one_pos
      have hprev : log.getLast?.map (fun r => r.hashChain) =
          some ((log.getD (log.length - 1) defaultAuditRow).hashChain) := by
        rw [List.getLast?_eq_getElem?, List.getElem?_eq_getElem hlen]
        simp [List.getD_eq_getElem?_getD, List.getElem?_eq_getElem hlen]
      rw [getD_append_left _ _ _ _ hlen]
      rw [hrow, hprev]

theorem appendAuditEvent_preserves (log : List AuditEventRow)
    (event : AuditEventInput) (createdAtIso : String)
    (h : auditChainValid log) :
    auditChainValid (appendAuditEvent log event createdAtIso) :=
  append_row_preserves log _ rfl h

theorem buildAuditLog_go (events : List (AuditEventInput × String)) :
    ∀ acc : List AuditEventRow, auditChainValid acc →
      auditChainValid
        (events.foldl (fun log e => appendAuditEvent log e.1 e.2) acc) := by
  induction events with
  | nil => intro acc h; exact h
  | cons e rest ih =>
      intro acc h
      exact ih _ (appendAuditEvent_preserves acc e.1 e.2 h)

/-- The audit log length equals the number of appended events. -/
theorem buildAuditLog_length (events : List (AuditEventInput × String)) :
    (buildAuditLog events).length = events.length := by
  have hgo : ∀ (es : List (AuditEventInput × String))
      (acc : List AuditEventRow),
      (es.foldl (fun log e => appendAuditEvent log e.1 e.2) acc).length =
        acc.length + es.length := by
    intro es
    induction es with
    | nil => intro acc; simp
    | cons e rest ih =>
        intro acc
        rw [List.foldl_cons, ih]
        simp [appendAuditEvent]
        omega
  rw [buildAuditLog, hgo]
  simp

/-! ## Theorems for claim C6 -/

set_option maxRecDepth 200000 in
/-- C6 counterexample: the hash stored for an appended event is not the
SHA-256 of the lexicographically ordered, metadata-canonicalized JSON
the claim describes — at this concrete event the two digests differ,
because createAuditHash serializes keys in insertion order and leaves
the metadata keys unsorted. -/
theorem c6_hash_is_not_canonical :
    ((buildAuditLog
        [({ actorType := "system", actorId := "agent", eventType := "e",
            metadata := Json.obj [("b", Json.num 1), ("a", Json.num 2)],
            correlationId := "c" }, "t")]).getD 0 defaultAuditRow).hashChain ≠
      createAuditHashSpecCanonical none "e"
        (Json.obj [("b", Json.num 1), ("a", Json.num 2)]) "t" := by
  decide

/-- C6 (amended): every stored hash_chain is SHA-256 of the JSON
serialization of previousHash, eventType, metadata and createdAtIso with
the keys in that insertion order and the metadata serialized as-is
(createAuditHash), where previousHash is the hash_chain of the most
recent prior event, or null for the first event — for any log built by
appendAuditEvent. -/
theorem c6_audit_chain_structure
    (events : List (AuditEventInput × String)) :
    auditChainValid (buildAuditLog events) := by
  apply buildAuditLog_go
  intro i hi
  simp at hi

/-- Closed witness for the amended C6 theorem at a two-event log. -/
theorem c6_audit_chain_structure_witness :
    ((buildAuditLog
        [({ actorType := "system", actorId := "agent", eventType := "e1",
            metadata := Json.null, correlationId := "c1" }, "t1"),
         ({ actorType := "system", actorId := "agent", eventType := "e2",
            metadata := Json.null, correlationId := "c2" }, "t2")]).getD 1
          defaultAuditRow).hashChain =
      createAuditHash
        (some (((buildAuditLog
          [({ actorType := "system", actorId := "agent", eventType := "e1",
              metadata := Json.null, correlationId := "c1" }, "t1"),
           ({ actorType := "system", actorId := "agent", eventType := "e2",
              metadata := Json.null, correlationId := "c2" }, "t2")]).getD 0
            defaultAuditRow).hashChain))
        ((buildAuditLog
          [({ actorType := "system", actorId := "agent", eventType := "e1",
              metadata := Json.null, correlationId := "c1" }, "t1"),
           ({ actorType := "system", actorId := "agent", eventType := "e2",
              metadata := Json.null, correlationId := "c2" }, "t2")]).getD 1
            defaultAuditRow).eventType
        ((buildAuditLog
          [({ actorType := "system", actorId := "agent", eventType := "e1",
              metadata := Json.null, correlationId := "c1" }, "t1"),
           ({ actorType := "system", actorId := "agent", eventType := "e2",
              metadata := Json.null, correlationId := "c2" }, "t2")]).getD 1
            defaultAuditRow).metadata
        ((buildAuditLog
          [({ actorType := "system", actorId := "agent", eventType := "e1",
              metadata := Json.null, correlationId := "c1" }, "t1"),
           ({ actorType := "system", actorId := "agent", eventType := "e2",
              metadata := Json.null, correlationId := "c2" }, "t2")]).getD 1
            defaultAuditRow).createdAtIso := by
  have h := c6_audit_chain_structure
    [({ actorType := "system", actorId := "agent", eventType := "e1",
        metadata := Json.null, correlationId := "c1" }, "t1"),
     ({ actorType := "system", actorId := "agent", eventType := "e2",
        metadata := Json.null, correlationId := "c2" }, "t2")] 1
    (by simp [buildAuditLog_length])
  simpa using h

/-! ## Response policy (src/unnamed/part_005)
String helpers model the JavaScript operations on the ASCII range the
policy texts live in: trim, whitespace-run collapsing, case folding and
the two regex families (word-bounded phrase search, anchored trivial
completion with optional trailing punctuation). -/

/-- The whitespace class of the regexes and of String.prototype.trim,
restricted to ASCII. -/
def jsWhitespace (c : Char) : Bool :=
  c = ' ' || c = '\t' || c = '\n' || c = '\r' ||
    c.toNat = 11 || c.toNat = 12

/-- String.prototype.trim. -/
def jsTrim (s : String) : String :=
  ⟨((s.data.dropWhile jsWhitespace).reverse.dropWhile jsWhitespace).reverse⟩

/-- Split into maximal whitespace-free words; the fuel is structural and
the character count is always enough of it. -/
def splitWordsFuel : Nat → List Char → List (List Char)
  | _, [] => []
  | 0, _ :: _ => []
  | fuel + 1, c :: rest =>
      if jsWhitespace c then splitWordsFuel fuel rest
      else
        (c :: rest).takeWhile (fun d => !jsWhitespace d) ::
          splitWordsFuel fuel
            ((c :: rest).dropWhile (fun d => !jsWhitespace d))

/-- Concatenate with a single separator between elements. -/
def joinWithSep (sep : List Char) : List (List Char) → List Char
  | [] => []
  | [w] => w
  | w :: x :: rest => w ++ sep ++ joinWithSep sep (x :: rest)

/-- replace(/\s+/g, " ") followed by trim: whitespace runs collapse to
one space and the ends are clean. -/
def jsNormalizeSpace (s : String) : String :=
  ⟨joinWithSep [' '] (splitWordsFuel s.data.length s.data)⟩

/-- ASCII lower casing, the effect of the i regex flag on these texts. -/
def asciiLower (c : Char) : Char :=
  if 65 ≤ c.toNat ∧ c.toNat ≤ 90 then Char.ofNat (c.toNat + 32) else c

/-- The regex word class \w. -/
def isWordChar (c : Char) : Bool :=
  (48 ≤ c.toNat && c.toNat ≤ 57) || (65 ≤ c.toNat && c.toNat ≤ 90) ||
    (97 ≤ c.toNat && c.toNat ≤ 122) || c = '_'

/-- After a phrase match, the boundary needs the next character (if any)
to fall outside \w. -/
def boundaryAfterOk (rest : List Char) : Bool :=
  match rest with
  | [] => true
  | c :: _ => !isWordChar c

/-- Scan for the pattern with a word boundary on both sides; prev is the
character just before the current position. -/
def searchWordBounded (pat : List Char) : Option Char → List Char → Bool
  | prev, text =>
      let prevOk :=
        match prev with
        | none => true
        | some c => !isWordChar c
      if prevOk && pat.isPrefixOf text &&
          boundaryAfterOk (text.drop pat.length) then
        true
      else
        match text with
        | [] => false
        | c :: rest => searchWordBounded pat (some c) rest

/-- One case-insensitive word-bounded phrase test, the meaning of each
plain-text approval pattern. -/
def containsWordPhrase (text : String) (pat : String) : Bool :=
  searchWordBounded pat.data none (text.data.map asciiLower)

/-- The phrase bodies of PLAIN_TEXT_APPROVAL_PATTERNS. -/
def PLAIN_TEXT_APPROVAL_PHRASES : List String :=
  ["do you approve", "need your explicit approval", "approval required",
   "approve this transaction", "pending your approval"]

/-- hasPlainTextApprovalRequest: some pattern matches the text. -/
def hasPlainTextApprovalRequest (text : String) : Bool :=
  PLAIN_TEXT_APPROVAL_PHRASES.any (fun pat => containsWordPhrase text pat)

/-- The anchored bodies of TRIVIAL_COMPLETION_PATTERNS; each pattern is
the body followed by optional dots and bangs, whole-string, case
folded. -/
def TRIVIAL_COMPLETION_BODIES : List String :=
  ["done", "completed", "complete", "all set", "finished", "task done",
   "action done"]

/-- One anchored trivial-completion test. -/
def matchesAnchoredBody (body : String) (text : String) : Bool :=
  let lowered := text.data.map asciiLower
  body.data.isPrefixOf lowered &&
    (lowered.drop body.data.length).all (fun c => c = '.' || c = '!')

/-- A tool-result content part as the response policy reads it. -/
structure ToolResultPart where
  toolName : String
  toolCallId : String
  output : Json

/-- The resolved response of a turn. -/
structure ResolvedTurnResponse where
  text : String
  forcedApprovedStatus : Bool

/-- Input of resolveTurnResponseText. -/
structure ResolveTurnInput where
  rawText : Option String
  userRequestText : Option String
  approvalsCount : Nat
  approvalWasGranted : Bool
  toolResults : List ToolResultPart

/-- JavaScript property read on a structured document: objects give the
entry of that key, anything else (arrays included: the keys used here
are never array indices) gives undefined. -/
def jsGetProp (j : Json) (key : String) : Option Json :=
  match j with
  | .obj entries => (entries.find? (fun e => e.1 = key)).map (fun e => e.2)
  | _ => none

/-- typeof value is object and not null. -/
def isRecordJson (j : Json) : Bool :=
  match j with
  | .obj _ => true
  | .arr _ => true
  | _ => false

/-- asNonEmptyString. -/
def asNonEmptyString (v : Option Json) : Option String :=
  match v with
  | some (.str s) => if 0 < (jsTrim s).length then some s else none
  | _ => none

/-- extractJsonOutputValue: the value member of a json-typed output
record, when it is itself a record. -/
def extractJsonOutputValue (output : Json) : Option Json :=
  if !isRecordJson output then none
  else
    match jsGetProp output "type" with
    | some (.str t) =>
        if t = "json" then
          match jsGetProp output "value" with
          | some v => if isRecordJson v then some v else none
          | none => none
        else none
    | _ => none

/-- Concatenate strings with a separator. -/
def joinStrings (sep : String) : List String → String
  | [] => ""
  | [x] => x
  | x :: y :: rest => x ++ sep ++ joinStrings sep (y :: rest)

/-- summarizeToolResult. -/
def summarizeToolResult (part : ToolResultPart) : String :=
  match extractJsonOutputValue part.output with
  | none => "Executed " ++ part.toolName ++ " (call " ++ part.toolCallId ++ ")."
  | some jsonValue =>
      let destination := asNonEmptyString (jsGetProp jsonValue "destination")
      let hash := asNonEmptyString (jsGetProp jsonValue "hash")
      let details :=
        (match destination with
         | some d => ["destination " ++ d]
         | none => []) ++
        (match hash with
         | some h => ["hash " ++ h]
         | none => [])
      match details with
      | [] => "Executed " ++ part.toolName ++ " (call " ++ part.toolCallId ++ ")."
      | _ => "Executed " ++ part.toolName ++ " (" ++
          joinStrings ", " details ++ ")."

/-- buildApprovedExecutionStatusText. -/
def buildApprovedExecutionStatusText (toolResults : List ToolResultPart) :
    String :=
  match toolResults with
  | [] => "Approval received. Protected action executed."
  | _ =>
      joinStrings "\n"
        ("Approval received. Protected action executed with the following result:" ::
          toolResults.map (fun part => "- " ++ summarizeToolResult part))

/-- The trimmed raw model text of the turn. -/
def resolvedRawText (input : ResolveTurnInput) : String :=
  jsTrim (input.rawText.getD "")

/-- hasTrivialCompletion over the whitespace-normalized text. -/
def turnHasTrivialCompletion (input : ResolveTurnInput) : Bool :=
  let normalizedText := jsNormalizeSpace (resolvedRawText input)
  0 < normalizedText.length && normalizedText.length ≤ 48 &&
    TRIVIAL_COMPLETION_BODIES.any
      (fun body => matchesAnchoredBody body normalizedText)

/-- shouldForceApprovedStatus: the turn followed a granted approval and
the raw text is empty, re-asks approval in plain text, or is a trivial
completion phrase. -/
def shouldForceApprovedStatus (input : ResolveTurnInput) : Bool :=
  input.approvalWasGranted &&
    ((resolvedRawText input).length = 0 ||
      hasPlainTextApprovalRequest (resolvedRawText input) ||
      turnHasTrivialCompletion input)

/-- The request topic quoted by context-aware completions. -/
def requestTopic (input : ResolveTurnInput) : Option String :=
  let normalizedRequestText :=
    jsNormalizeSpace (input.userRequestText.getD "")
  if 0 < normalizedRequestText.length then
    some
      (if 96 < normalizedRequestText.length then
        (⟨normalizedRequestText.data.take 93⟩ : String) ++ "..."
      else normalizedRequestText)
  else none

/-- buildContextAwareCompletionText. -/
def buildContextAwareCompletionText (input : ResolveTurnInput) : String :=
  match input.toolResults with
  | _ :: _ =>
      joinStrings "\n"
        ((match requestTopic input with
          | some topic =>
              "Completed your request about \"" ++ topic ++
                "\" with these results:"
          | none => "Completed your request with these results:") ::
          input.toolResults.map (fun part => "- " ++ summarizeToolResult part))
  | [] =>
      match requestTopic input with
      | some topic =>
          "Completed your request about \"" ++ topic ++
            "\". I can provide a deeper breakdown or verification steps if you want."
      | none =>
          "Completed the request. Ask for details, exact values, or next steps if you want a deeper response."

/-- The approval-pending suffixes. -/
def APPROVAL_PENDING_SUFFIX : String :=
  "\n\nApproval pending for critical operation. Use the approval buttons in chat."

def NEXT_APPROVAL_PENDING_SUFFIX : String :=
  "\n\nAnother protected action is pending approval. Use the approval buttons in chat."

/-- resolveTurnResponseText. -/
def resolveTurnResponseText (input : ResolveTurnInput) :
    ResolvedTurnResponse :=
  let text := resolvedRawText input
  let hasPendingApprovals := 0 < input.approvalsCount
  if shouldForceApprovedStatus input then
    let statusText := buildApprovedExecutionStatusText input.toolResults
    { text :=
        if hasPendingApprovals then statusText ++ NEXT_APPROVAL_PENDING_SUFFIX
        else statusText
      forcedApprovedStatus := true }
  else if 0 < text.length && !turnHasTrivialCompletion input then
    { text :=
        if hasPendingApprovals then text ++ APPROVAL_PENDING_SUFFIX else text
      forcedApprovedStatus := false }
  else if hasPendingApprovals then
    { text :=
        (match requestTopic input with
         | some topic => "Prepared the next step for \"" ++ topic ++ "\"."
         | none => "Prepared the next step.") ++ APPROVAL_PENDING_SUFFIX
      forcedApprovedStatus := false }
  else
    { text := buildContextAwareCompletionText input
      forcedApprovedStatus := false }

/-- startsWith as list prefix on the character data. -/
def strStartsWith (s p : String) : Bool :=
  p.data.isPrefixOf s.data

theorem strStartsWith_append (a b p : String)
    (h : strStartsWith a p = true) : strStartsWith (a ++ b) p = true := by
  simp only [strStartsWith, List.isPrefixOf_iff_prefix] at h ⊢
  rw [String.data_append]
  exact h.trans (List.prefix_append a.data b.data)

theorem statusText_starts (toolResults : List ToolResultPart) :
    strStartsWith (buildApprovedExecutionStatusText toolResults)
      "Approval received." = true := by
  cases toolResults with
  | nil => decide
  | cons t ts =>
      show strStartsWith
        (joinStrings "\n" (_ :: (t :: ts).map (fun part => "- " ++ summarizeToolResult part)))
        "Approval received." = true
      rw [List.map_cons, joinStrings]
      apply strStartsWith_append
      apply strStartsWith_append
      decide

/-! ## Theorems for claim C5 -/

/-- C5: response policy forcing. When the approval response was granted
and the trimmed raw text is empty, matches a plain-text approval re-ask
pattern, or is a trivial completion phrase (shouldForceApprovedStatus),
the resolved text begins with the words Approval received. and the
forcedApprovedStatus flag is set; in every other case the flag is
clear. -/
theorem c5_response_policy_forcing (input : ResolveTurnInput) :
    (shouldForceApprovedStatus input = true →
      strStartsWith (resolveTurnResponseText input).text
        "Approval received." = true ∧
      (resolveTurnResponseText input).forcedApprovedStatus = true) ∧
    (shouldForceApprovedStatus input = false →
      (resolveTurnResponseText input).forcedApprovedStatus = false) := by
  constructor
  · intro h
    simp only [resolveTurnResponseText, h, if_true]
    constructor
    · by_cases hp : 0 < input.approvalsCount
      · simp only [hp, if_true]
        exact strStartsWith_append _ _ _ (statusText_starts input.toolResults)
      · simp only [hp, if_false]
        exact statusText_starts input.toolResults
    · trivial
  · intro h
    simp only [resolveTurnResponseText, h]
    by_cases h2 : 0 < (resolvedRawText input).length ∧
        turnHasTrivialCompletion input = false
    · simp [h2.1, h2.2]
    · by_cases h3 : 0 < input.approvalsCount
      · by_cases h4 : 0 < (resolvedRawText input).length <;>
          by_cases h5 : turnHasTrivialCompletion input <;>
            simp [h4, h5, h3] at h2 ⊢
      · by_cases h4 : 0 < (resolvedRawText input).length <;>
          by_cases h5 : turnHasTrivialCompletion input <;>
            simp [h4, h5, h3] at h2 ⊢

/-- Closed witness for C5: a granted approval whose raw text is the
trivial phrase Done. forces the approved status text, and an ordinary
text does not. -/
theorem c5_response_policy_forcing_witness :
    (strStartsWith
        (resolveTurnResponseText
          { rawText := some "Done.", userRequestText := some "send 1 TON",
            approvalsCount := 0, approvalWasGranted := true,
            toolResults := [] }).text "Approval received." = true ∧
      (resolveTurnResponseText
        { rawText := some "Done.", userRequestText := some "send 1 TON",
          approvalsCount := 0, approvalWasGranted := true,
          toolResults := [] }).forcedApprovedStatus = true) ∧
    (resolveTurnResponseText
      { rawText := some "Here is the balance.", userRequestText := none,
        approvalsCount := 0, approvalWasGranted := false,
        toolResults := [] }).forcedApprovedStatus = false :=
  ⟨(c5_response_policy_forcing
      { rawText := some "Done.", userRequestText := some "send 1 TON",
        approvalsCount := 0, approvalWasGranted := true,
        toolResults := [] }).1 (by decide),
   (c5_response_policy_forcing
      { rawText := some "Here is the balance.", userRequestText := none,
        approvalsCount := 0, approvalWasGranted := false,
        toolResults := [] }).2 (by decide)⟩

/-! ## Risk policy (src/src/approvals/presenter.ts second half, the
risk-policy module). JavaScript numbers are modeled as Rat (every float
is a finite value a Rat holds exactly; every candidate here is finite,
so the Number.isFinite guards are always true in the model), and the
numeric-string parsing covers the plain decimal literals these payloads
carry. Rational comparisons go through ratLe to stay executable. -/

/-- Boolean a ≤ b on Rat by cross multiplication. -/
def ratLe (a b : Rat) : Bool :=
  a.num * (b.den : Int) ≤ b.num * (a.den : Int)

/-- ASCII lowercase of a string. -/
def lowerStr (s : String) : String :=
  ⟨s.data.map asciiLower⟩

/-- String.prototype.includes. -/
def strContains (s sub : String) : Bool :=
  containsAux sub.data s.data
where
  containsAux (pat : List Char) : List Char → Bool
    | [] => pat.isEmpty
    | c :: rest =>
        if pat.isPrefixOf (c :: rest) then true else containsAux pat rest

/-- Numeric digit list value. -/
def digitsVal (l : List Char) : Nat :=
  l.foldl (fun acc c => acc * 10 + (c.toNat - 48)) 0

/-- Number(string) on an already trimmed string, for the decimal
literals: optional sign, then digits with an optional fractional part
(at least one digit overall). -/
def jsParseNumber (s : String) : Option Rat :=
  match s.data with
  | '-' :: rest => (jsParseUnsigned rest).map (fun q => -q)
  | '+' :: rest => jsParseUnsigned rest
  | l => jsParseUnsigned l
where
  jsParseUnsigned (l : List Char) : Option Rat :=
    let isDigit := fun c : Char => 48 ≤ c.toNat && c.toNat ≤ 57
    let intPart := l.takeWhile isDigit
    match l.dropWhile isDigit with
    | [] =>
        if intPart.isEmpty then none
        else some ((digitsVal intPart : Int) : Rat)
    | '.' :: frac =>
        if frac.all isDigit && !(intPart.isEmpty && frac.isEmpty) then
          some (mkRat (digitsVal intPart * 10 ^ frac.length + digitsVal frac)
            (10 ^ frac.length))
        else none
    | _ => none

/-- parseNumberish. -/
def parseNumberish (v : Json) : Option Rat :=
  match v with
  | .num q => some q
  | .str s =>
      if 0 < (jsTrim s).data.length then jsParseNumber (jsTrim s) else none
  | _ => none

/-- A numeric candidate found in the tool input. -/
structure NumberCandidate where
  key : String
  path : String
  value : Rat
deriving DecidableEq, Repr

mutual

/-- walkNumericCandidates: arrays recurse with indexed paths; object
entries contribute a candidate when their value parses as a number, and
are recursed into either way. -/
def walkJsonCand : Json → String → List NumberCandidate
  | .arr items, path => walkArrCand items path 0
  | .obj entries, path => walkObjCand entries path
  | _, _ => []

def walkArrCand : List Json → String → Nat → List NumberCandidate
  | [], _, _ => []
  | v :: rest, path, i =>
      walkJsonCand v (path ++ "[" ++ toString i ++ "]") ++
        walkArrCand rest path (i + 1)

def walkObjCand : List (String × Json) → String → List NumberCandidate
  | [], _ => []
  | (k, v) :: rest, path =>
      (match parseNumberish v with
       | some n =>
           [{ key := lowerStr k
              path := lowerStr (if 0 < path.length then path ++ "." ++ k else k)
              value := n }]
       | none => []) ++
        walkJsonCand v (if 0 < path.length then path ++ "." ++ k else k) ++
        walkObjCand rest path

end

/-- toTonValue: nano-denominated keys scale down by ten to the ninth. -/
def toTonValue (candidate : NumberCandidate) : Rat :=
  if strContains candidate.key "nano" || strContains candidate.path "nano" ||
      strContains candidate.path "nanoton" then
    mkRat candidate.value.num ((candidate.value.den : Nat) * 10 ^ 9)
  else candidate.value

/-- Insert into a descending-sorted list. -/
def insertDesc (q : Rat) : List Rat → List Rat
  | [] => [q]
  | x :: rest => if ratLe x q then q :: x :: rest else x :: insertDesc q rest

/-- Sort descending, the effect of sort((l, r) => r - l). -/
def sortDesc (l : List Rat) : List Rat :=
  l.foldr insertDesc []

/-- VALUE_HINTS. -/
def VALUE_HINTS : List String := ["amount", "value", "ton", "coins", "send"]

/-- GAS_HINTS. -/
def GAS_HINTS : List String :=
  ["gas", "fee", "fwd_fee", "forward_fee", "storage_fee"]

/-- pickEstimate: the largest nonnegative scaled value among the
candidates whose key or path contains a hint. -/
def pickEstimate (candidates : List NumberCandidate) (hints : List String) :
    Option Rat :=
  let matching := candidates.filter (fun candidate =>
    hints.any (fun hint =>
      strContains candidate.key hint || strContains candidate.path hint))
  match matching with
  | [] => none
  | _ =>
      (sortDesc ((matching.map toTonValue).filter
        (fun v => ratLe 0 v))).head?

/-- riskToScore. -/
def riskToScore (risk : String) : Int :=
  if risk = "low" then 0
  else if risk = "medium" then 1
  else if risk = "high" then 2
  else 3

/-- scoreToRisk. -/
def scoreToRisk (score : Int) : String :=
  if score ≤ 0 then "low"
  else if score = 1 then "medium"
  else if score = 2 then "high"
  else "critical"

/-- Integer max, kept executable. -/
def intMax (a b : Int) : Int := if a ≤ b then b else a

/-- Integer min, kept executable. -/
def intMin (a b : Int) : Int := if a ≤ b then a else b

/-- applyRiskProfileAdjustment. -/
def applyRiskProfileAdjustment (baseRisk : String) (profile : String)
    (valueTon : Option Rat) : String :=
  let score0 := riskToScore baseRisk
  let score1 :=
    if profile = "cautious" then score0 + 1
    else if profile = "advanced" ∧ 0 < score0 then score0 - 1
    else score0
  let v := valueTon.getD 0
  let score2 :=
    if ratLe 100 v then intMax score1 3
    else if ratLe 10 v then intMax score1 2
    else if ratLe 1 v then intMax score1 1
    else score1
  scoreToRisk (intMin 3 (intMax 0 score2))

/-- inferBatchItemCount: length of the messages (or, nullishly falling
back, transfers) array. -/
def inferBatchItemCount (input : Json) : Nat :=
  match input with
  | .obj _ =>
      let entries :=
        match jsGetProp input "messages" with
        | some .null | none => jsGetProp input "transfers"
        | some v => some v
      match entries with
      | some (.arr l) => l.length
      | _ => 0
  | _ => 0

/-- BASE_RISK_BY_TOOL. -/
def baseRiskByTool (toolName : String) : String :=
  if toolName = "tonSendBlockchainMessage" then "high"
  else if toolName = "tonSendBlockchainMessageBatch" then "critical"
  else if toolName = "tonBuildAndSendExternalMessage" then "high"
  else if toolName = "tonTonConnectProof" then "medium"
  else "medium"

/-- toFixed(6) for the nonnegative estimates, rounding half up. -/
def ratToFixed6 (q : Rat) : String :=
  let n := (2 * q.num * 10 ^ 6 + (q.den : Int)) / (2 * (q.den : Int))
  toString (n.natAbs / 10 ^ 6) ++ "." ++
    padZeros 6 (toString (n.natAbs % 10 ^ 6))

/-- The assessment assessApproval returns. -/
structure ApprovalAssessment where
  level : String
  reasons : List String
  valueTon : Option Rat
  gasTon : Option Rat
  confidence : String
deriving DecidableEq, Repr

/-- Input of assessApproval. -/
structure AssessApprovalInput where
  toolName : String
  toolInput : Json
  riskProfile : String

/-- assessApproval. The gas estimate falls back to a per-tool default
(0.05 batch, 0.02 otherwise) when no gas hint was extracted, so the
stored gasTon is never null. -/
def assessApproval (input : AssessApprovalInput) : ApprovalAssessment :=
  let numericCandidates := walkJsonCand input.toolInput ""
  let valueTon := pickEstimate numericCandidates VALUE_HINTS
  let gasTon : Option Rat :=
    some ((pickEstimate numericCandidates GAS_HINTS).getD
      (if input.toolName = "tonSendBlockchainMessageBatch" then mkRat 5 100
       else mkRat 2 100))
  let batchCount := inferBatchItemCount input.toolInput
  let reasons :=
    ["Tool request: " ++ input.toolName ++ "."] ++
    (if 1 < batchCount then
      ["Batch operation contains " ++ toString batchCount ++ " item(s)."]
     else []) ++
    (match valueTon with
     | some v => ["Estimated transfer value is " ++ ratToFixed6 v ++ " TON."]
     | none => ["Transfer value could not be determined with high confidence."]) ++
    (match gasTon with
     | some g => ["Estimated gas/fees are " ++ ratToFixed6 g ++ " TON."]
     | none => []) ++
    (if 5 ≤ batchCount then ["Large batch size increased risk."] else [])
  let baseRisk :=
    if 5 ≤ batchCount then "critical" else baseRiskByTool input.toolName
  let adjustedRisk :=
    applyRiskProfileAdjustment baseRisk input.riskProfile valueTon
  let confidence :=
    if valueTon.isSome ∧ gasTon.isSome then "high"
    else if valueTon.isSome ∨ gasTon.isSome then "medium"
    else "low"
  { level := adjustedRisk
    reasons := reasons
    valueTon := valueTon
    gasTon := gasTon
    confidence := confidence }

/-! ## Theorems for claim C8 -/

/-- C8 counterexample: a tool input with no numeric value or gas hints
(an empty object) yields confidence medium, not the low the claim
requires — the gas estimate silently defaults to 0.02, so a gas estimate
is always present. -/
theorem c8_no_hints_is_medium :
    pickEstimate (walkJsonCand (Json.obj []) "") VALUE_HINTS = none ∧
    pickEstimate (walkJsonCand (Json.obj []) "") GAS_HINTS = none ∧
    (assessApproval
      { toolName := "tonSendBlockchainMessage", toolInput := Json.obj [],
        riskProfile := "balanced" }).confidence = "medium" := by
  decide

/-- C8 (amended): the confidence is high exactly when a value estimate
was extracted from the tool input and medium otherwise; because the gas
estimate falls back to a per-tool default, a gas estimate always exists
and the low confidence level is unreachable. -/
theorem c8_confidence_from_value_only (input : AssessApprovalInput) :
    (assessApproval input).confidence =
      (if (pickEstimate (walkJsonCand input.toolInput "") VALUE_HINTS).isSome
       then "high" else "medium") ∧
    (assessApproval input).confidence ≠ "low" := by
  cases hpick : pickEstimate (walkJsonCand input.toolInput "") VALUE_HINTS with
  | none => simp [assessApproval, hpick]
  | some v => simp [assessApproval, hpick]

/-! ## Rate limiter (src/src/security/encryption.ts rate-limit module)
The redis backing store is a key-value map with per-key counters and
expiry timestamps, plus a failing flag: when the store is failing every
round trip raises, which is how the storage-error paths are exercised.
The INCR-with-EXPIRE lua script is embedded as one atomic operation.
Wall-clock input is a structure carrying the epoch milliseconds together
with the UTC calendar fields a JavaScript Date exposes; the difference
from the next UTC midnight is determined by the time of day alone. -/

/-- Rate limit configuration drawn from the environment. -/
structure RateLimitConfig where
  burstWindowSeconds : Nat
  minuteWindowSeconds : Nat
  chatMinuteMax : Nat
  noticeCooldownSeconds : Nat
  trustedUserIds : List String
  freeBurstMax : Nat
  freeMinuteMax : Nat
  freeDailyMax : Nat
  trustedMultiplier : Nat
deriving DecidableEq, Repr

/-- The effective limits of a tier. -/
structure TierLimits where
  burstMax : Nat
  minuteMax : Nat
  dailyMax : Nat
deriving DecidableEq, Repr

/-- The daily fields a decision may carry. -/
structure DailyExtra where
  dailyUsed : Nat
  dailyLimit : Nat
  resetsAtUtc : Nat
deriving DecidableEq, Repr

/-- A rate limit decision. -/
structure RateLimitDecision where
  allowed : Bool
  reason : String
  retryAfterSeconds : Nat
  tier : String
  dailyUsed : Option Nat
  dailyLimit : Option Nat
  resetsAtUtc : Option Nat
deriving DecidableEq, Repr

/-- getTierForUser. -/
def getTierForUser (telegramUserId : String) (config : RateLimitConfig) :
    String :=
  if config.trustedUserIds.contains telegramUserId then "trusted" else "free"

/-- getTierLimits. -/
def getTierLimits (tier : String) (config : RateLimitConfig) : TierLimits :=
  if tier = "trusted" then
    { burstMax := config.freeBurstMax * config.trustedMultiplier
      minuteMax := config.freeMinuteMax * config.trustedMultiplier
      dailyMax := config.freeDailyMax * config.trustedMultiplier }
  else
    { burstMax := config.freeBurstMax
      minuteMax := config.freeMinuteMax
      dailyMax := config.freeDailyMax }

/-- allowedDecision. -/
def allowedDecision (tier : String) (extra : Option DailyExtra) :
    RateLimitDecision :=
  { allowed := true, reason := "allowed", retryAfterSeconds := 0,
    tier := tier
    dailyUsed := extra.map (fun e => e.dailyUsed)
    dailyLimit := extra.map (fun e => e.dailyLimit)
    resetsAtUtc := extra.map (fun e => e.resetsAtUtc) }

/-- deniedDecision. -/
def deniedDecision (tier : String) (reason : String)
    (retryAfterSeconds : Nat) (extra : Option DailyExtra) :
    RateLimitDecision :=
  { allowed := false, reason := reason
    retryAfterSeconds := max 1 retryAfterSeconds
    tier := tier
    dailyUsed := extra.map (fun e => e.dailyUsed)
    dailyLimit := extra.map (fun e => e.dailyLimit)
    resetsAtUtc := extra.map (fun e => e.resetsAtUtc) }

/-- failOpenDecision. -/
def failOpenDecision (tier : String) : RateLimitDecision :=
  { allowed := true, reason := "rate_limit_storage_error",
    retryAfterSeconds := 0, tier := tier,
    dailyUsed := none, dailyLimit := none, resetsAtUtc := none }

/-- The redis store: per-key counter and expiry epoch, plus a failing
flag under which every operation raises. -/
structure KvStore where
  failing : Bool
  entries : String → Option (Nat × Nat)

/-- The counter script result. -/
structure CounterResult where
  count : Nat
  ttlSeconds : Nat
deriving DecidableEq, Repr

/-- The INCR-then-EXPIRE-if-new lua script: an absent or expired key
restarts at one with the fresh ttl; a live key increments and keeps its
expiry, reporting the remaining seconds rounded up. -/
def redisIncrWithTtl (kv : KvStore) (nowMs : Nat) (key : String)
    (ttlSeconds : Nat) : (Nat × Nat) × KvStore :=
  match kv.entries key with
  | some (c, exp) =>
      if nowMs < exp then
        ((c + 1, (exp - nowMs + 999) / 1000),
         { kv with entries := fun k =>
             if k = key then some (c + 1, exp) else kv.entries k })
      else
        ((1, ttlSeconds),
         { kv with entries := fun k =>
             if k = key then some (1, nowMs + ttlSeconds * 1000)
             else kv.entries k })
  | none =>
      ((1, ttlSeconds),
       { kv with entries := fun k =>
           if k = key then some (1, nowMs + ttlSeconds * 1000)
           else kv.entries k })

/-- incrementCounter: run the script, normalizing the ttl up to one and
the reported remaining ttl up to one; raises when the store is down. -/
def incrementCounter (kv : KvStore) (nowMs : Nat) (key : String)
    (ttlSeconds : Nat) : Except String (CounterResult × KvStore) :=
  if kv.failing then
    .error "rate limit storage failure"
  else
    let normalizedTtl := max 1 ttlSeconds
    let r := redisIncrWithTtl kv nowMs key normalizedTtl
    .ok ({ count := r.1.1, ttlSeconds := max 1 r.1.2 }, r.2)

/-- What new Date() exposes of the current UTC instant. -/
structure UtcNow where
  epochMs : Nat
  year : Nat
  month : Nat
  day : Nat
  msInDay : Nat
deriving DecidableEq, Repr

/-- The UTC daily window. -/
structure UtcDailyWindow where
  dayKey : String
  counterTtlSeconds : Nat
  secondsUntilReset : Nat
  resetsAtUtc : Nat
deriving DecidableEq, Repr

/-- getWindowBucket: the fixed window index of the current instant. -/
def getWindowBucket (nowMs : Nat) (windowSeconds : Nat) : Nat :=
  nowMs / 1000 / windowSeconds

/-- getUtcDailyWindow: the YYYYMMDD key, the seconds to the next UTC
midnight rounded up (at least one) and the counter ttl with its grace of
sixty seconds. The distance to the next midnight is one day minus the
time of day. -/
def getUtcDailyWindow (now : UtcNow) : UtcDailyWindow :=
  { dayKey := toString now.year ++ padZeros 2 (toString (now.month + 1)) ++
      padZeros 2 (toString now.day)
    counterTtlSeconds :=
      max 1 ((86400000 - now.msInDay + 999) / 1000) + 60
    secondsUntilReset := max 1 ((86400000 - now.msInDay + 999) / 1000)
    resetsAtUtc := now.epochMs + (86400000 - now.msInDay) }

/-- The chat anti-flood counter key. -/
def chatKey (telegramChatId : String) (config : RateLimitConfig)
    (now : UtcNow) : String :=
  "rl:v1:chat:" ++ telegramChatId ++ ":m:" ++
    toString (getWindowBucket now.epochMs config.minuteWindowSeconds)

/-- The user burst counter key. -/
def burstKey (telegramUserId : String) (config : RateLimitConfig)
    (now : UtcNow) : String :=
  "rl:v1:user:" ++ telegramUserId ++ ":b:" ++
    toString (getWindowBucket now.epochMs config.burstWindowSeconds)

/-- The user minute counter key. -/
def minuteKey (telegramUserId : String) (config : RateLimitConfig)
    (now : UtcNow) : String :=
  "rl:v1:user:" ++ telegramUserId ++ ":m:" ++
    toString (getWindowBucket now.epochMs config.minuteWindowSeconds)

/-- The user daily counter key. -/
def dailyKey (telegramUserId : String) (now : UtcNow) : String :=
  "rl:v1:user:" ++ telegramUserId ++ ":d:" ++ (getUtcDailyWindow now).dayKey

/-- checkChatSpamLimit: one counter on the chat minute window; over the
cap denies with chat_flood; a storage failure fails open. -/
def checkChatSpamLimit (config : RateLimitConfig) (telegramChatId : String)
    (telegramUserId : String) (now : UtcNow) (kv : KvStore) :
    RateLimitDecision × KvStore :=
  let tier := getTierForUser telegramUserId config
  match incrementCounter kv now.epochMs (chatKey telegramChatId config now)
      (config.minuteWindowSeconds + 5) with
  | .error _ => (failOpenDecision tier, kv)
  | .ok (counter, kv2) =>
      if config.chatMinuteMax < counter.count then
        (deniedDecision tier "chat_flood" counter.ttlSeconds none, kv2)
      else
        (allowedDecision tier none, kv2)

/-- checkUserTurnQuota: burst, then minute, then daily, stopping at the
first exceeded window; a storage failure fails open. -/
def checkUserTurnQuota (config : RateLimitConfig) (telegramUserId : String)
    (now : UtcNow) (kv : KvStore) : RateLimitDecision × KvStore :=
  let tier := getTierForUser telegramUserId config
  let limits := getTierLimits tier config
  match incrementCounter kv now.epochMs (burstKey telegramUserId config now)
      (config.burstWindowSeconds + 5) with
  | .error _ => (failOpenDecision tier, kv)
  | .ok (burstCounter, kv1) =>
      if limits.burstMax < burstCounter.count then
        (deniedDecision tier "user_burst" burstCounter.ttlSeconds none, kv1)
      else
        match incrementCounter kv1 now.epochMs
            (minuteKey telegramUserId config now)
            (config.minuteWindowSeconds + 5) with
        | .error _ => (failOpenDecision tier, kv1)
        | .ok (minuteCounter, kv2) =>
            if limits.minuteMax < minuteCounter.count then
              (deniedDecision tier "user_minute" minuteCounter.ttlSeconds
                none, kv2)
            else
              match incrementCounter kv2 now.epochMs
                  (dailyKey telegramUserId now)
                  (getUtcDailyWindow now).counterTtlSeconds with
              | .error _ => (failOpenDecision tier, kv2)
              | .ok (dailyCounter, kv3) =>
                  if limits.dailyMax < dailyCounter.count then
                    (deniedDecision tier "user_daily"
                      (getUtcDailyWindow now).secondsUntilReset
                      (some
                        { dailyUsed := dailyCounter.count
                          dailyLimit := limits.dailyMax
                          resetsAtUtc := (getUtcDailyWindow now).resetsAtUtc }),
                     kv3)
                  else
                    (allowedDecision tier
                      (some
                        { dailyUsed := dailyCounter.count
                          dailyLimit := limits.dailyMax
                          resetsAtUtc := (getUtcDailyWindow now).resetsAtUtc }),
                     kv3)

/-! ### Counter-state lemmas for the rate limiter -/

theorem list_tag_ne (p q x y : List Char) (a b : Char) (hab : a ≠ b) :
    p ++ (q ++ ((':' :: a :: ':' :: []) ++ x)) ≠
      p ++ (q ++ ((':' :: b :: ':' :: []) ++ y)) := by
  intro h
  have h2 := List.append_cancel_left (List.append_cancel_left h)
  simp only [List.cons_append, List.nil_append, List.cons.injEq] at h2
  exact hab h2.2.1

theorem burstKey_ne_minuteKey (uid : String) (cfg : RateLimitConfig)
    (now : UtcNow) : burstKey uid cfg now ≠ minuteKey uid cfg now := by
  intro h
  have hd := congrArg String.data h
  simp only [burstKey, minuteKey, String.data_append, List.append_assoc] at hd
  exact list_tag_ne _ _ _ _ 'b' 'm' (by decide) hd

theorem burstKey_ne_dailyKey (uid : String) (cfg : RateLimitConfig)
    (now : UtcNow) : burstKey uid cfg now ≠ dailyKey uid now := by
  intro h
  have hd := congrArg String.data h
  simp only [burstKey, dailyKey, String.data_append, List.append_assoc] at hd
  exact list_tag_ne _ _ _ _ 'b' 'd' (by decide) hd

theorem minuteKey_ne_dailyKey (uid : String) (cfg : RateLimitConfig)
    (now : UtcNow) : minuteKey uid cfg now ≠ dailyKey uid now := by
  intro h
  have hd := congrArg String.data h
  simp only [minuteKey, dailyKey, String.data_append, List.append_assoc] at hd
  exact list_tag_ne _ _ _ _ 'm' 'd' (by decide) hd

def kvU (uid : String) (cfg : RateLimitConfig) (now : UtcNow)
    (b m d : Nat) : KvStore :=
  { failing := false
    entries := fun key =>
      if key = burstKey uid cfg now then
        (if b = 0 then none
         else some (b, now.epochMs + (cfg.burstWindowSeconds + 5) * 1000))
      else if key = minuteKey uid cfg now then
        (if m = 0 then none
         else some (m, now.epochMs + (cfg.minuteWindowSeconds + 5) * 1000))
      else if key = dailyKey uid now then
        (if d = 0 then none
         else some (d,
           now.epochMs + (getUtcDailyWindow now).counterTtlSeconds * 1000))
      else none }

theorem kvU_entries_burst (uid : String) (cfg : RateLimitConfig)
    (now : UtcNow) (b m d : Nat) :
    (kvU uid cfg now b m d).entries (burstKey uid cfg now) =
      (if b = 0 then none
       else some (b, now.epochMs + (cfg.burstWindowSeconds + 5) * 1000)) := by
  simp [kvU]

theorem kvU_update_burst (uid : String) (cfg : RateLimitConfig)
    (now : UtcNow) (b m d : Nat) :
    (fun k => if k = burstKey uid cfg now then
        some (b + 1, now.epochMs + (cfg.burstWindowSeconds + 5) * 1000)
      else (kvU uid cfg now b m d).entries k) =
      (kvU uid cfg now (b + 1) m d).entries := by
  funext k
  by_cases hk : k = burstKey uid cfg now
  · simp [kvU, hk]
  · simp [kvU, hk]

theorem kvU_update_minute (uid : String) (cfg : RateLimitConfig)
    (now : UtcNow) (b m d : Nat) :
    (fun k => if k = minuteKey uid cfg now then
        some (m + 1, now.epochMs + (cfg.minuteWindowSeconds + 5) * 1000)
      else (kvU uid cfg now b m d).entries k) =
      (kvU uid cfg now b (m + 1) d).entries := by
  have hmb : ¬minuteKey uid cfg now = burstKey uid cfg now :=
    fun hc => burstKey_ne_minuteKey uid cfg now hc.symm
  funext k
  by_cases hk : k = minuteKey uid cfg now
  · simp [kvU, hk, hmb]
  · simp [kvU, hk]

theorem kvU_update_daily (uid : String) (cfg : RateLimitConfig)
    (now : UtcNow) (b m d : Nat) :
    (fun k => if k = dailyKey uid now then
        some (d + 1,
          now.epochMs + (getUtcDailyWindow now).counterTtlSeconds * 1000)
      else (kvU uid cfg now b m d).entries k) =
      (kvU uid cfg now b m (d + 1)).entries := by
  have hdb : ¬dailyKey uid now = burstKey uid cfg now :=
    fun hc => burstKey_ne_dailyKey uid cfg now hc.symm
  have hdm : ¬dailyKey uid now = minuteKey uid cfg now :=
    fun hc => minuteKey_ne_dailyKey uid cfg now hc.symm
  funext k
  by_cases hk : k = dailyKey uid now
  · simp [kvU, hk, hdb, hdm]
  · simp [kvU, hk]

theorem kvU_entries_minute (uid : String) (cfg : RateLimitConfig)
    (now : UtcNow) (b m d : Nat) :
    (kvU uid cfg now b m d).entries (minuteKey uid cfg now) =
      (if m = 0 then none
       else some (m, now.epochMs + (cfg.minuteWindowSeconds + 5) * 1000)) := by
  have hb : ¬minuteKey uid cfg now = burstKey uid cfg now :=
    fun hc => burstKey_ne_minuteKey uid cfg now hc.symm
  simp [kvU, hb]

theorem kvU_entries_daily (uid : String) (cfg : RateLimitConfig)
    (now : UtcNow) (b m d : Nat) :
    (kvU uid cfg now b m d).entries (dailyKey uid now) =
      (if d = 0 then none
       else some (d,
         now.epochMs + (getUtcDailyWindow now).counterTtlSeconds * 1000)) := by
  have hb : ¬dailyKey uid now = burstKey uid cfg now :=
    fun hc => burstKey_ne_dailyKey uid cfg now hc.symm
  have hm : ¬dailyKey uid now = minuteKey uid cfg now :=
    fun hc => minuteKey_ne_dailyKey uid cfg now hc.symm
  simp [kvU, hb, hm]

theorem incr_generic (kv : KvStore) (nowMs : Nat) (key : String)
    (t : Nat) (c : Nat)
    (hfail : kv.failing = false)
    (ht : 1 ≤ t)
    (hent : kv.entries key =
      (if c = 0 then none else some (c, nowMs + t * 1000))) :
    incrementCounter kv nowMs key t =
      .ok ({ count := c + 1, ttlSeconds := t },
        { kv with entries := fun k =>
            if k = key then some (c + 1, nowMs + t * 1000)
            else kv.entries k }) := by
  have hmax : max 1 t = t := by omega
  by_cases hc : c = 0
  · subst hc
    rw [if_pos rfl] at hent
    simp only [incrementCounter, hfail, Bool.false_eq_true, if_false,
      redisIncrWithTtl, hent, hmax]
  · rw [if_neg hc] at hent
    have hlt : nowMs < nowMs + t * 1000 := by omega
    have hrem : (nowMs + t * 1000 - nowMs + 999) / 1000 = t := by
      omega
    simp only [incrementCounter, hfail, Bool.false_eq_true, if_false,
      redisIncrWithTtl, hent, hmax, if_pos hlt, hrem]

theorem incr_burst (uid : String) (cfg : RateLimitConfig) (now : UtcNow)
    (b m d : Nat) :
    incrementCounter (kvU uid cfg now b m d) now.epochMs
        (burstKey uid cfg now) (cfg.burstWindowSeconds + 5) =
      .ok ({ count := b + 1, ttlSeconds := cfg.burstWindowSeconds + 5 },
        kvU uid cfg now (b + 1) m d) := by
  rw [incr_generic (kvU uid cfg now b m d) now.epochMs (burstKey uid cfg now)
    (cfg.burstWindowSeconds + 5) b rfl (by omega)
    (kvU_entries_burst uid cfg now b m d)]
  rw [kvU_update_burst uid cfg now b m d]
  rfl

theorem incr_minute (uid : String) (cfg : RateLimitConfig) (now : UtcNow)
    (b m d : Nat) :
    incrementCounter (kvU uid cfg now b m d) now.epochMs
        (minuteKey uid cfg now) (cfg.minuteWindowSeconds + 5) =
      .ok ({ count := m + 1, ttlSeconds := cfg.minuteWindowSeconds + 5 },
        kvU uid cfg now b (m + 1) d) := by
  rw [incr_generic (kvU uid cfg now b m d) now.epochMs (minuteKey uid cfg now)
    (cfg.minuteWindowSeconds + 5) m rfl (by omega)
    (kvU_entries_minute uid cfg now b m d)]
  rw [kvU_update_minute uid cfg now b m d]
  rfl

theorem incr_daily (uid : String) (cfg : RateLimitConfig) (now : UtcNow)
    (b m d : Nat) :
    incrementCounter (kvU uid cfg now b m d) now.epochMs
        (dailyKey uid now) (getUtcDailyWindow now).counterTtlSeconds =
      .ok ({ count := d + 1,
             ttlSeconds := (getUtcDailyWindow now).counterTtlSeconds },
        kvU uid cfg now b m (d + 1)) := by
  rw [incr_generic (kvU uid cfg now b m d) now.epochMs (dailyKey uid now)
    (getUtcDailyWindow now).counterTtlSeconds d rfl
    (by simp [getUtcDailyWindow])
    (kvU_entries_daily uid cfg now b m d)]
  rw [kvU_update_daily uid cfg now b m d]
  rfl

theorem quota_step (cfg : RateLimitConfig) (uid : String) (now : UtcNow)
    (b m d : Nat) :
    checkUserTurnQuota cfg uid now (kvU uid cfg now b m d) =
      (if (getTierLimits (getTierForUser uid cfg) cfg).burstMax < b + 1 then
        (deniedDecision (getTierForUser uid cfg) "user_burst"
          (cfg.burstWindowSeconds + 5) none, kvU uid cfg now (b + 1) m d)
      else if (getTierLimits (getTierForUser uid cfg) cfg).minuteMax < m + 1 then
        (deniedDecision (getTierForUser uid cfg) "user_minute"
          (cfg.minuteWindowSeconds + 5) none,
         kvU uid cfg now (b + 1) (m + 1) d)
      else if (getTierLimits (getTierForUser uid cfg) cfg).dailyMax < d + 1 then
        (deniedDecision (getTierForUser uid cfg) "user_daily"
          (getUtcDailyWindow now).secondsUntilReset
          (some { dailyUsed := d + 1
                  dailyLimit := (getTierLimits (getTierForUser uid cfg) cfg).dailyMax
                  resetsAtUtc := (getUtcDailyWindow now).resetsAtUtc }),
         kvU uid cfg now (b + 1) (m + 1) (d + 1))
      else
        (allowedDecision (getTierForUser uid cfg)
          (some { dailyUsed := d + 1
                  dailyLimit := (getTierLimits (getTierForUser uid cfg) cfg).dailyMax
                  resetsAtUtc := (getUtcDailyWindow now).resetsAtUtc }),
         kvU uid cfg now (b + 1) (m + 1) (d + 1))) := by
  simp only [checkUserTurnQuota, incr_burst, incr_minute, incr_daily]

/-- The empty backing store. -/
def kvEmpty : KvStore := { failing := false, entries := fun _ => none }

theorem kvU_zero (uid : String) (cfg : RateLimitConfig) (now : UtcNow) :
    kvU uid cfg now 0 0 0 = kvEmpty := by
  have h : (kvU uid cfg now 0 0 0).entries = kvEmpty.entries := by
    funext k
    simp [kvU, kvEmpty]
  simp only [kvU, kvEmpty] at h ⊢
  exact congrArg (KvStore.mk false) h

/-- The store after k user-quota admissions of one user starting from
the empty store, all at the same instant. -/
def quotaAfter (cfg : RateLimitConfig) (uid : String) (now : UtcNow) :
    Nat → KvStore
  | 0 => kvEmpty
  | k + 1 => (checkUserTurnQuota cfg uid now (quotaAfter cfg uid now k)).2

/-- The decision of the next user-quota admission after k prior ones. -/
def nextQuotaDecision (cfg : RateLimitConfig) (uid : String) (now : UtcNow)
    (k : Nat) : RateLimitDecision :=
  (checkUserTurnQuota cfg uid now (quotaAfter cfg uid now k)).1

theorem quotaAfter_state (cfg : RateLimitConfig) (uid : String)
    (now : UtcNow) (k : Nat)
    (hb : k ≤ (getTierLimits (getTierForUser uid cfg) cfg).burstMax)
    (hm : k ≤ (getTierLimits (getTierForUser uid cfg) cfg).minuteMax)
    (hd : k ≤ (getTierLimits (getTierForUser uid cfg) cfg).dailyMax) :
    quotaAfter cfg uid now k = kvU uid cfg now k k k := by
  induction k with
  | zero => exact (kvU_zero uid cfg now).symm
  | succ k ih =>
      have ih2 := ih (by omega) (by omega) (by omega)
      show (checkUserTurnQuota cfg uid now (quotaAfter cfg uid now k)).2 = _
      rw [ih2, quota_step]
      rw [if_neg (by omega), if_neg (by omega), if_neg (by omega)]

theorem nextQuotaDecision_eq (cfg : RateLimitConfig) (uid : String)
    (now : UtcNow) (k : Nat)
    (hb : k ≤ (getTierLimits (getTierForUser uid cfg) cfg).burstMax)
    (hm : k ≤ (getTierLimits (getTierForUser uid cfg) cfg).minuteMax)
    (hd : k ≤ (getTierLimits (getTierForUser uid cfg) cfg).dailyMax) :
    nextQuotaDecision cfg uid now k =
      (if (getTierLimits (getTierForUser uid cfg) cfg).burstMax < k + 1 then
        deniedDecision (getTierForUser uid cfg) "user_burst"
          (cfg.burstWindowSeconds + 5) none
      else if (getTierLimits (getTierForUser uid cfg) cfg).minuteMax < k + 1 then
        deniedDecision (getTierForUser uid cfg) "user_minute"
          (cfg.minuteWindowSeconds + 5) none
      else if (getTierLimits (getTierForUser uid cfg) cfg).dailyMax < k + 1 then
        deniedDecision (getTierForUser uid cfg) "user_daily"
          (getUtcDailyWindow now).secondsUntilReset
          (some { dailyUsed := k + 1
                  dailyLimit := (getTierLimits (getTierForUser uid cfg) cfg).dailyMax
                  resetsAtUtc := (getUtcDailyWindow now).resetsAtUtc })
      else
        allowedDecision (getTierForUser uid cfg)
          (some { dailyUsed := k + 1
                  dailyLimit := (getTierLimits (getTierForUser uid cfg) cfg).dailyMax
                  resetsAtUtc := (getUtcDailyWindow now).resetsAtUtc })) := by
  rw [nextQuotaDecision, quotaAfter_state cfg uid now k hb hm hd, quota_step]
  by_cases h1 : (getTierLimits (getTierForUser uid cfg) cfg).burstMax < k + 1
  · rw [if_pos h1, if_pos h1]
  · rw [if_neg h1, if_neg h1]
    by_cases h2 : (getTierLimits (getTierForUser uid cfg) cfg).minuteMax < k + 1
    · rw [if_pos h2, if_pos h2]
    · rw [if_neg h2, if_neg h2]
      by_cases h3 : (getTierLimits (getTierForUser uid cfg) cfg).dailyMax < k + 1
      · rw [if_pos h3, if_pos h3]
      · rw [if_neg h3, if_neg h3]

/-- The chat-scope store with the chat flood counter at c. -/
def kvC (chatId : String) (cfg : RateLimitConfig) (now : UtcNow) (c : Nat) :
    KvStore :=
  { failing := false
    entries := fun key =>
      if key = chatKey chatId cfg now then
        (if c = 0 then none
         else some (c, now.epochMs + (cfg.minuteWindowSeconds + 5) * 1000))
      else none }

theorem chat_step (cfg : RateLimitConfig) (chatId uid : String)
    (now : UtcNow) (c : Nat) :
    checkChatSpamLimit cfg chatId uid now (kvC chatId cfg now c) =
      (if cfg.chatMinuteMax < c + 1 then
        deniedDecision (getTierForUser uid cfg) "chat_flood"
          (cfg.minuteWindowSeconds + 5) none
      else allowedDecision (getTierForUser uid cfg) none,
       kvC chatId cfg now (c + 1)) := by
  have hent : (kvC chatId cfg now c).entries (chatKey chatId cfg now) =
      (if c = 0 then none
       else some (c, now.epochMs + (cfg.minuteWindowSeconds + 5) * 1000)) := by
    simp [kvC]
  have hincr := incr_generic (kvC chatId cfg now c) now.epochMs
    (chatKey chatId cfg now) (cfg.minuteWindowSeconds + 5) c rfl (by omega)
    hent
  have hupd : (fun k => if k = chatKey chatId cfg now then
      some (c + 1, now.epochMs + (cfg.minuteWindowSeconds + 5) * 1000)
      else (kvC chatId cfg now c).entries k) =
      (kvC chatId cfg now (c + 1)).entries := by
    funext k
    by_cases hk : k = chatKey chatId cfg now
    · simp [kvC, hk]
    · simp [kvC, hk]
  simp only [checkChatSpamLimit, hincr, hupd]
  by_cases h1 : cfg.chatMinuteMax < c + 1
  · rw [if_pos h1, if_pos h1]
    rfl
  · rw [if_neg h1, if_neg h1]
    rfl

/-- The store after k chat admissions in one chat at one instant. -/
def chatAfter (cfg : RateLimitConfig) (chatId uid : String) (now : UtcNow) :
    Nat → KvStore
  | 0 => kvEmpty
  | k + 1 =>
      (checkChatSpamLimit cfg chatId uid now
        (chatAfter cfg chatId uid now k)).2

/-- The decision of the next chat admission after k prior ones. -/
def nextChatDecision (cfg : RateLimitConfig) (chatId uid : String)
    (now : UtcNow) (k : Nat) : RateLimitDecision :=
  (checkChatSpamLimit cfg chatId uid now (chatAfter cfg chatId uid now k)).1

theorem kvC_zero (chatId : String) (cfg : RateLimitConfig) (now : UtcNow) :
    kvC chatId cfg now 0 = kvEmpty := by
  have h : (kvC chatId cfg now 0).entries = kvEmpty.entries := by
    funext k
    simp [kvC, kvEmpty]
  simp only [kvC, kvEmpty] at h ⊢
  exact congrArg (KvStore.mk false) h

theorem chatAfter_state (cfg : RateLimitConfig) (chatId uid : String)
    (now : UtcNow) (k : Nat) (hk : k ≤ cfg.chatMinuteMax) :
    chatAfter cfg chatId uid now k = kvC chatId cfg now k := by
  induction k with
  | zero => exact (kvC_zero chatId cfg now).symm
  | succ k ih =>
      have ih2 := ih (by omega)
      show (checkChatSpamLimit cfg chatId uid now
        (chatAfter cfg chatId uid now k)).2 = _
      rw [ih2, chat_step]

theorem nextChatDecision_eq (cfg : RateLimitConfig) (chatId uid : String)
    (now : UtcNow) (k : Nat) (hk : k ≤ cfg.chatMinuteMax) :
    nextChatDecision cfg chatId uid now k =
      (if cfg.chatMinuteMax < k + 1 then
        deniedDecision (getTierForUser uid cfg) "chat_flood"
          (cfg.minuteWindowSeconds + 5) none
      else allowedDecision (getTierForUser uid cfg) none) := by
  rw [nextChatDecision, chatAfter_state cfg chatId uid now k hk, chat_step]

theorem incr_expired (kv : KvStore) (nowMs : Nat) (key : String)
    (t c exp : Nat)
    (hfail : kv.failing = false)
    (ht : 1 ≤ t)
    (hexp : exp ≤ nowMs)
    (hent : kv.entries key = some (c, exp)) :
    incrementCounter kv nowMs key t =
      .ok ({ count := 1, ttlSeconds := t },
        { kv with entries := fun k =>
            if k = key then some (1, nowMs + t * 1000)
            else kv.entries k }) := by
  have hmax : max 1 t = t := by omega
  have hnlt : ¬nowMs < exp := by omega
  simp only [incrementCounter, hfail, Bool.false_eq_true, if_false,
    redisIncrWithTtl, hent, if_neg hnlt, hmax]

/-- A chat store holding only an already expired flood counter. -/
def kvChatExpired (chatId : String) (cfg : RateLimitConfig) (now : UtcNow)
    (c exp : Nat) : KvStore :=
  { failing := false
    entries := fun key =>
      if key = chatKey chatId cfg now then some (c, exp) else none }

theorem chat_expired_fresh (cfg : RateLimitConfig) (chatId uid : String)
    (now : UtcNow) (c exp : Nat) (hexp : exp ≤ now.epochMs)
    (hmax : 1 ≤ cfg.chatMinuteMax) :
    (checkChatSpamLimit cfg chatId uid now
        (kvChatExpired chatId cfg now c exp)).1 =
      allowedDecision (getTierForUser uid cfg) none := by
  have hent : (kvChatExpired chatId cfg now c exp).entries
      (chatKey chatId cfg now) = some (c, exp) := by
    simp [kvChatExpired]
  have hincr := incr_expired (kvChatExpired chatId cfg now c exp) now.epochMs
    (chatKey chatId cfg now) (cfg.minuteWindowSeconds + 5) c exp rfl
    (by omega) hexp hent
  simp only [checkChatSpamLimit, hincr]
  rw [if_neg (by omega)]

/-! ## Theorems for claim C3 -/

/-- C3: rate-limit window arithmetic. For each of the four counter
windows with configured max N of at least one, the first N admissions in
the same window (same instant, hence same bucket) are allowed and the
next one is denied with that window's reason, provided the other user
windows do not bind first; and the first admission on a fresh window
(counter absent, or present but expired) is allowed. -/
theorem c3_rate_window_arithmetic :
    (∀ (cfg : RateLimitConfig) (chatId uid : String) (now : UtcNow) (N : Nat),
      cfg.chatMinuteMax = N → 1 ≤ N →
      (∀ k, k < N →
        (nextChatDecision cfg chatId uid now k).allowed = true) ∧
      (nextChatDecision cfg chatId uid now N).allowed = false ∧
      (nextChatDecision cfg chatId uid now N).reason = "chat_flood") ∧
    (∀ (cfg : RateLimitConfig) (uid : String) (now : UtcNow) (N : Nat),
      (getTierLimits (getTierForUser uid cfg) cfg).burstMax = N → 1 ≤ N →
      N ≤ (getTierLimits (getTierForUser uid cfg) cfg).minuteMax →
      N ≤ (getTierLimits (getTierForUser uid cfg) cfg).dailyMax →
      (∀ k, k < N →
        (nextQuotaDecision cfg uid now k).allowed = true) ∧
      (nextQuotaDecision cfg uid now N).allowed = false ∧
      (nextQuotaDecision cfg uid now N).reason = "user_burst") ∧
    (∀ (cfg : RateLimitConfig) (uid : String) (now : UtcNow) (N : Nat),
      (getTierLimits (getTierForUser uid cfg) cfg).minuteMax = N → 1 ≤ N →
      N + 1 ≤ (getTierLimits (getTierForUser uid cfg) cfg).burstMax →
      N ≤ (getTierLimits (getTierForUser uid cfg) cfg).dailyMax →
      (∀ k, k < N →
        (nextQuotaDecision cfg uid now k).allowed = true) ∧
      (nextQuotaDecision cfg uid now N).allowed = false ∧
      (nextQuotaDecision cfg uid now N).reason = "user_minute") ∧
    (∀ (cfg : RateLimitConfig) (uid : String) (now : UtcNow) (N : Nat),
      (getTierLimits (getTierForUser uid cfg) cfg).dailyMax = N → 1 ≤ N →
      N + 1 ≤ (getTierLimits (getTierForUser uid cfg) cfg).burstMax →
      N + 1 ≤ (getTierLimits (getTierForUser uid cfg) cfg).minuteMax →
      (∀ k, k < N →
        (nextQuotaDecision cfg uid now k).allowed = true) ∧
      (nextQuotaDecision cfg uid now N).allowed = false ∧
      (nextQuotaDecision cfg uid now N).reason = "user_daily") ∧
    (∀ (cfg : RateLimitConfig) (chatId uid : String) (now : UtcNow),
      (1 ≤ cfg.chatMinuteMax →
        (nextChatDecision cfg chatId uid now 0).allowed = true) ∧
      (1 ≤ (getTierLimits (getTierForUser uid cfg) cfg).burstMax →
       1 ≤ (getTierLimits (getTierForUser uid cfg) cfg).minuteMax →
       1 ≤ (getTierLimits (getTierForUser uid cfg) cfg).dailyMax →
        (nextQuotaDecision cfg uid now 0).allowed = true) ∧
      (∀ c exp, exp ≤ now.epochMs → 1 ≤ cfg.chatMinuteMax →
        (checkChatSpamLimit cfg chatId uid now
          (kvChatExpired chatId cfg now c exp)).1.allowed = true)) := by
  refine ⟨?_, ?_, ?_, ?_, ?_⟩
  · intro cfg chatId uid now N hN h1
    refine ⟨?_, ?_, ?_⟩
    · intro k hk
      rw [nextChatDecision_eq cfg chatId uid now k (by omega),
        if_neg (by omega)]
      rfl
    · rw [nextChatDecision_eq cfg chatId uid now N (by omega),
        if_pos (by omega)]
      rfl
    · rw [nextChatDecision_eq cfg chatId uid now N (by omega),
        if_pos (by omega)]
      rfl
  · intro cfg uid now N hN h1 hm hd
    refine ⟨?_, ?_, ?_⟩
    · intro k hk
      rw [nextQuotaDecision_eq cfg uid now k (by omega) (by omega) (by omega),
        if_neg (by omega), if_neg (by omega), if_neg (by omega)]
      rfl
    · rw [nextQuotaDecision_eq cfg uid now N (by omega) (by omega) (by omega),
        if_pos (by omega)]
      rfl
    · rw [nextQuotaDecision_eq cfg uid now N (by omega) (by omega) (by omega),
        if_pos (by omega)]
      rfl
  · intro cfg uid now N hN h1 hb hd
    refine ⟨?_, ?_, ?_⟩
    · intro k hk
      rw [nextQuotaDecision_eq cfg uid now k (by omega) (by omega) (by omega),
        if_neg (by omega), if_neg (by omega), if_neg (by omega)]
      rfl
    · rw [nextQuotaDecision_eq cfg uid now N (by omega) (by omega) (by omega),
        if_neg (by omega), if_pos (by omega)]
      rfl
    · rw [nextQuotaDecision_eq cfg uid now N (by omega) (by omega) (by omega),
        if_neg (by omega), if_pos (by omega)]
      rfl
  · intro cfg uid now N hN h1 hb hm
    refine ⟨?_, ?_, ?_⟩
    · intro k hk
      rw [nextQuotaDecision_eq cfg uid now k (by omega) (by omega) (by omega),
        if_neg (by omega), if_neg (by omega), if_neg (by omega)]
      rfl
    · rw [nextQuotaDecision_eq cfg uid now N (by omega) (by omega) (by omega),
        if_neg (by omega), if_neg (by omega), if_pos (by omega)]
      rfl
    · rw [nextQuotaDecision_eq cfg uid now N (by omega) (by omega) (by omega),
        if_neg (by omega), if_neg (by omega), if_pos (by omega)]
      rfl
  · intro cfg chatId uid now
    refine ⟨?_, ?_, ?_⟩
    · intro h1
      rw [nextChatDecision_eq cfg chatId uid now 0 (by omega),
        if_neg (by omega)]
      rfl
    · intro hb hm hd
      rw [nextQuotaDecision_eq cfg uid now 0 (by omega) (by omega) (by omega),
        if_neg (by omega), if_neg (by omega), if_neg (by omega)]
      rfl
    · intro c exp hexp h1
      rw [chat_expired_fresh cfg chatId uid now c exp hexp h1]
      rfl

/-- A sample instant. -/
def nowX : UtcNow :=
  { epochMs := 1771761600000, year := 2026, month := 1, day := 22,
    msInDay := 43200000 }

/-- A sample configuration where the burst window binds first. -/
def cfgBurst : RateLimitConfig :=
  { burstWindowSeconds := 3, minuteWindowSeconds := 60, chatMinuteMax := 2,
    noticeCooldownSeconds := 20, trustedUserIds := [], freeBurstMax := 2,
    freeMinuteMax := 3, freeDailyMax := 4, trustedMultiplier := 5 }

/-- A sample configuration where the minute window binds first. -/
def cfgMinute : RateLimitConfig :=
  { burstWindowSeconds := 3, minuteWindowSeconds := 60, chatMinuteMax := 2,
    noticeCooldownSeconds := 20, trustedUserIds := [], freeBurstMax := 10,
    freeMinuteMax := 2, freeDailyMax := 5, trustedMultiplier := 5 }

/-- A sample configuration where the daily window binds first. -/
def cfgDaily : RateLimitConfig :=
  { burstWindowSeconds := 3, minuteWindowSeconds := 60, chatMinuteMax := 2,
    noticeCooldownSeconds := 20, trustedUserIds := [], freeBurstMax := 10,
    freeMinuteMax := 10, freeDailyMax := 2, trustedMultiplier := 5 }

/-- Closed witness for C3 at concrete configurations: the third request
under each window of max two is denied with that window's reason, the
first is allowed, and an expired chat counter admits afresh. -/
theorem c3_rate_window_arithmetic_witness :
    (nextChatDecision cfgBurst "c1" "u1" nowX 0).allowed = true ∧
    (nextChatDecision cfgBurst "c1" "u1" nowX 2).reason = "chat_flood" ∧
    (nextQuotaDecision cfgBurst "u1" nowX 1).allowed = true ∧
    (nextQuotaDecision cfgBurst "u1" nowX 2).reason = "user_burst" ∧
    (nextQuotaDecision cfgMinute "u1" nowX 2).reason = "user_minute" ∧
    (nextQuotaDecision cfgDaily "u1" nowX 2).reason = "user_daily" ∧
    (checkChatSpamLimit cfgBurst "c1" "u1" nowX
      (kvChatExpired "c1" cfgBurst nowX 7 1000)).1.allowed = true := by
  refine ⟨?_, ?_, ?_, ?_, ?_, ?_, ?_⟩
  · exact ((c3_rate_window_arithmetic.1 cfgBurst "c1" "u1" nowX 2
      (by decide) (by decide)).1 0 (by decide))
  · exact (c3_rate_window_arithmetic.1 cfgBurst "c1" "u1" nowX 2
      (by decide) (by decide)).2.2
  · exact ((c3_rate_window_arithmetic.2.1 cfgBurst "u1" nowX 2
      (by decide) (by decide) (by decide) (by decide)).1 1 (by decide))
  · exact (c3_rate_window_arithmetic.2.1 cfgBurst "u1" nowX 2
      (by decide) (by decide) (by decide) (by decide)).2.2
  · exact (c3_rate_window_arithmetic.2.2.1 cfgMinute "u1" nowX 2
      (by decide) (by decide) (by decide) (by decide)).2.2
  · exact (c3_rate_window_arithmetic.2.2.2.1 cfgDaily "u1" nowX 2
      (by decide) (by decide) (by decide) (by decide)).2.2
  · exact (c3_rate_window_arithmetic.2.2.2.2 cfgBurst "c1" "u1" nowX).2.2
      7 1000 (by decide) (by decide)

/-! ## Theorems for claim C4 -/

/-- A failing backing store. -/
def kvDown : KvStore := { failing := true, entries := fun _ => none }

/-- C4 counterexample: on a storage failure the decision is allowed but
its reason is the literal rate_limit_storage_error, not the
storage_error the claim names. -/
theorem c4_reason_literal_mismatch :
    (checkChatSpamLimit cfgBurst "c1" "u1" nowX kvDown).1.allowed = true ∧
    (checkChatSpamLimit cfgBurst "c1" "u1" nowX kvDown).1.reason ≠
      "storage_error" ∧
    (checkChatSpamLimit cfgBurst "c1" "u1" nowX kvDown).1.reason =
      "rate_limit_storage_error" ∧
    (checkUserTurnQuota cfgBurst "u1" nowX kvDown).1.reason =
      "rate_limit_storage_error" := by
  refine ⟨rfl, ?_, rfl, rfl⟩
  decide

/-- C4 (amended): when the backing store raises, both admission checks
return the fail-open decision — allowed, with reason
rate_limit_storage_error — and leave the store untouched; the functions
are total (the source catches every storage error), which is the model
of not raising. -/
theorem c4_fail_open (cfg : RateLimitConfig) (chatId uid : String)
    (now : UtcNow) (kv : KvStore) (hfail : kv.failing = true) :
    checkChatSpamLimit cfg chatId uid now kv =
      (failOpenDecision (getTierForUser uid cfg), kv) ∧
    checkUserTurnQuota cfg uid now kv =
      (failOpenDecision (getTierForUser uid cfg), kv) ∧
    (failOpenDecision (getTierForUser uid cfg)).allowed = true ∧
    (failOpenDecision (getTierForUser uid cfg)).reason =
      "rate_limit_storage_error" := by
  refine ⟨?_, ?_, rfl, rfl⟩
  · simp only [checkChatSpamLimit, incrementCounter, hfail, if_true]
  · simp only [checkUserTurnQuota, incrementCounter, hfail, if_true]

/-- Closed witness for the amended C4 theorem at the failing store. -/
theorem c4_fail_open_witness :
    checkChatSpamLimit cfgBurst "c1" "u1" nowX kvDown =
      (failOpenDecision (getTierForUser "u1" cfgBurst), kvDown) ∧
    checkUserTurnQuota cfgBurst "u1" nowX kvDown =
      (failOpenDecision (getTierForUser "u1" cfgBurst), kvDown) ∧
    (failOpenDecision (getTierForUser "u1" cfgBurst)).allowed = true ∧
    (failOpenDecision (getTierForUser "u1" cfgBurst)).reason =
      "rate_limit_storage_error" :=
  c4_fail_open cfgBurst "c1" "u1" nowX kvDown rfl

/-! ## Theorems for claim C10 -/

/-- The counter value stored at a key. -/
def countAt (kv : KvStore) (key : String) : Option Nat :=
  (kv.entries key).map (fun e => e.1)

/-- C10: quota short-circuit order. From any counter state of one user
at one instant, a burst-denied request increments only the burst
counter; a minute-denied request increments burst and minute but not
daily; only requests passing both earlier windows consume daily quota,
and a daily-denied request still increments the daily counter, reporting
dailyUsed above dailyLimit. -/
theorem c10_quota_short_circuit (cfg : RateLimitConfig) (uid : String)
    (now : UtcNow) (b m d : Nat) :
    ((getTierLimits (getTierForUser uid cfg) cfg).burstMax < b + 1 →
      (checkUserTurnQuota cfg uid now (kvU uid cfg now b m d)).1.reason =
        "user_burst" ∧
      countAt (checkUserTurnQuota cfg uid now (kvU uid cfg now b m d)).2
          (burstKey uid cfg now) = some (b + 1) ∧
      countAt (checkUserTurnQuota cfg uid now (kvU uid cfg now b m d)).2
          (minuteKey uid cfg now) =
        countAt (kvU uid cfg now b m d) (minuteKey uid cfg now) ∧
      countAt (checkUserTurnQuota cfg uid now (kvU uid cfg now b m d)).2
          (dailyKey uid now) =
        countAt (kvU uid cfg now b m d) (dailyKey uid now)) ∧
    (¬(getTierLimits (getTierForUser uid cfg) cfg).burstMax < b + 1 →
     (getTierLimits (getTierForUser uid cfg) cfg).minuteMax < m + 1 →
      (checkUserTurnQuota cfg uid now (kvU uid cfg now b m d)).1.reason =
        "user_minute" ∧
      countAt (checkUserTurnQuota cfg uid now (kvU uid cfg now b m d)).2
          (minuteKey uid cfg now) = some (m + 1) ∧
      countAt (checkUserTurnQuota cfg uid now (kvU uid cfg now b m d)).2
          (dailyKey uid now) =
        countAt (kvU uid cfg now b m d) (dailyKey uid now)) ∧
    (¬(getTierLimits (getTierForUser uid cfg) cfg).burstMax < b + 1 →
     ¬(getTierLimits (getTierForUser uid cfg) cfg).minuteMax < m + 1 →
     (getTierLimits (getTierForUser uid cfg) cfg).dailyMax < d + 1 →
      (checkUserTurnQuota cfg uid now (kvU uid cfg now b m d)).1.reason =
        "user_daily" ∧
      countAt (checkUserTurnQuota cfg uid now (kvU uid cfg now b m d)).2
          (dailyKey uid now) = some (d + 1) ∧
      (checkUserTurnQuota cfg uid now (kvU uid cfg now b m d)).1.dailyUsed =
        some (d + 1) ∧
      (checkUserTurnQuota cfg uid now (kvU uid cfg now b m d)).1.dailyLimit =
        some (getTierLimits (getTierForUser uid cfg) cfg).dailyMax ∧
      (getTierLimits (getTierForUser uid cfg) cfg).dailyMax < d + 1) ∧
    (¬(getTierLimits (getTierForUser uid cfg) cfg).burstMax < b + 1 →
     ¬(getTierLimits (getTierForUser uid cfg) cfg).minuteMax < m + 1 →
     ¬(getTierLimits (getTierForUser uid cfg) cfg).dailyMax < d + 1 →
      (checkUserTurnQuota cfg uid now (kvU uid cfg now b m d)).1.allowed =
        true ∧
      countAt (checkUserTurnQuota cfg uid now (kvU uid cfg now b m d)).2
          (dailyKey uid now) = some (d + 1) ∧
      (checkUserTurnQuota cfg uid now (kvU uid cfg now b m d)).1.dailyUsed =
        some (d + 1)) := by
  refine ⟨?_, ?_, ?_, ?_⟩
  · intro h1
    rw [quota_step, if_pos h1]
    refine ⟨rfl, ?_, ?_, ?_⟩
    · simp [countAt, kvU_entries_burst]
    · simp [countAt, kvU_entries_minute]
    · simp [countAt, kvU_entries_daily]
  · intro h1 h2
    rw [quota_step, if_neg h1, if_pos h2]
    refine ⟨rfl, ?_, ?_⟩
    · simp [countAt, kvU_entries_minute]
    · simp [countAt, kvU_entries_daily]
  · intro h1 h2 h3
    rw [quota_step, if_neg h1, if_neg h2, if_pos h3]
    refine ⟨rfl, ?_, rfl, rfl, h3⟩
    simp [countAt, kvU_entries_daily]
  · intro h1 h2 h3
    rw [quota_step, if_neg h1, if_neg h2, if_neg h3]
    refine ⟨rfl, ?_, rfl⟩
    simp [countAt, kvU_entries_daily]

/-- Closed witness for C10: with limits two, two, two and counters two,
zero, zero the request is burst-denied and the minute and daily counters
are untouched. -/
theorem c10_quota_short_circuit_witness :
    (checkUserTurnQuota cfgBurst "u1" nowX
      (kvU "u1" cfgBurst nowX 2 0 0)).1.reason = "user_burst" ∧
    countAt (checkUserTurnQuota cfgBurst "u1" nowX
      (kvU "u1" cfgBurst nowX 2 0 0)).2 (burstKey "u1" cfgBurst nowX) =
      some 3 ∧
    countAt (checkUserTurnQuota cfgBurst "u1" nowX
      (kvU "u1" cfgBurst nowX 2 0 0)).2 (minuteKey "u1" cfgBurst nowX) =
      countAt (kvU "u1" cfgBurst nowX 2 0 0) (minuteKey "u1" cfgBurst nowX) ∧
    countAt (checkUserTurnQuota cfgBurst "u1" nowX
      (kvU "u1" cfgBurst nowX 2 0 0)).2 (dailyKey "u1" nowX) =
      countAt (kvU "u1" cfgBurst nowX 2 0 0) (dailyKey "u1" nowX) :=
  (c10_quota_short_circuit cfgBurst "u1" nowX 2 0 0).1 (by decide)

/-! ## Agent turn executor, provider fallback
(src/src/agent/ton-agent.ts executeWithProviderFallback). A provider
attempt carries the behavior its stream exhibits when consumed: the
chunks delivered, then either a final result or a thrown error. The
loop over attempts is embedded with its index and the saved primary
error. -/

/-- One chunk of the full stream. -/
inductive StreamChunk where
  | textDelta (text : String)
  | other
deriving DecidableEq, Repr

/-- What one attempt's stream does when consumed: the chunks delivered
before the outcome, and either a successful final result (finalText and
response messages) or a thrown error. -/
structure StreamRun where
  chunks : List StreamChunk
  finalText : String
  responseMessages : List Json
  error : Option String

/-- A model attempt with the behavior of its stream. -/
structure ModelAttempt where
  provider : String
  modelId : String
  run : StreamRun

/-- The execution result of the provider loop. -/
structure ProviderExecutionResult where
  provider : String
  modelId : String
  toolChoice : String
  responseText : String
  responseMessages : List Json
  usedFallback : Bool
  primaryErrorMessage : Option String

/-- emittedAnyDelta after consuming the chunks: some text-delta chunk
with nonempty text arrived. -/
def emittedAnyDelta (chunks : List StreamChunk) : Bool :=
  chunks.any fun c =>
    match c with
    | .textDelta t => 0 < t.length
    | .other => false

/-- The accumulated streamed text: the nonempty text deltas in order. -/
def streamedTextOf (chunks : List StreamChunk) : String :=
  chunks.foldl
    (fun acc c =>
      match c with
      | .textDelta t => if 0 < t.length then acc ++ t else acc
      | .other => acc) ""

/-- The normalized response text of a successful stream: the final text
when it has content after trimming, the accumulated deltas otherwise. -/
def normalizedTextOf (run : StreamRun) : String :=
  if 0 < (jsTrim run.finalText).length then run.finalText
  else streamedTextOf run.chunks

/-- The attempt loop: on success return with usedFallback when past the
first attempt; on a first-attempt failure, switch to the next attempt
only when a fallback exists and no delta was emitted; otherwise, and on
any later-attempt failure, rethrow. -/
def execAttemptsLoop (hasFallbackAttempt : Bool) (toolChoice : String) :
    List ModelAttempt → Nat → Option String →
      Except String ProviderExecutionResult
  | [], _, primaryError =>
      match primaryError with
      | some e => .error e
      | none => .error "No model provider attempts were available."
  | attempt :: rest, index, primaryError =>
      match attempt.run.error with
      | none =>
          .ok { provider := attempt.provider
                modelId := attempt.modelId
                toolChoice := toolChoice
                responseText := normalizedTextOf attempt.run
                responseMessages := attempt.run.responseMessages
                usedFallback := 0 < index
                primaryErrorMessage := primaryError }
      | some e =>
          if index = 0 then
            if hasFallbackAttempt then
              if emittedAnyDelta attempt.run.chunks then .error e
              else execAttemptsLoop hasFallbackAttempt toolChoice rest
                (index + 1) (some e)
            else .error e
          else .error e

/-- executeWithProviderFallback over the built attempts. -/
def executeWithProviderFallback (attempts : List ModelAttempt)
    (toolChoice : String) : Except String ProviderExecutionResult :=
  execAttemptsLoop (1 < attempts.length) toolChoice attempts 0 none

/-! ## Theorems for claim C2 -/

/-- C2: provider fallback gating. With a fallback attempt configured and
a failing primary stream, the executor switches to the fallback exactly
when no text delta was emitted — the fallback then runs with
usedFallback set and the saved primary error — and when at least one
delta was emitted the primary error propagates no matter what the
fallback would do, so the fallback attempt never starts. -/
theorem c2_provider_fallback_gating (primary fallback : ModelAttempt)
    (toolChoice : String) (e : String)
    (herr : primary.run.error = some e) :
    (emittedAnyDelta primary.run.chunks = false →
      executeWithProviderFallback [primary, fallback] toolChoice =
        (match fallback.run.error with
         | none =>
             .ok { provider := fallback.provider
                   modelId := fallback.modelId
                   toolChoice := toolChoice
                   responseText := normalizedTextOf fallback.run
                   responseMessages := fallback.run.responseMessages
                   usedFallback := true
                   primaryErrorMessage := some e }
         | some e2 => .error e2)) ∧
    (emittedAnyDelta primary.run.chunks = true →
      executeWithProviderFallback [primary, fallback] toolChoice =
        .error e) := by
  constructor
  · intro hdelta
    cases hf : fallback.run.error with
    | none =>
        simp [executeWithProviderFallback, execAttemptsLoop, herr, hdelta, hf]
    | some e2 =>
        simp [executeWithProviderFallback, execAttemptsLoop, herr, hdelta, hf]
  · intro hdelta
    simp [executeWithProviderFallback, execAttemptsLoop, herr, hdelta]

/-- Closed witness for C2: a pre-stream primary failure completes from
the fallback with usedFallback set; a mid-stream failure after one
delta propagates the primary error. -/
theorem c2_provider_fallback_gating_witness :
    executeWithProviderFallback
        [{ provider := "openrouter", modelId := "m1",
           run := { chunks := [], finalText := "", responseMessages := [],
                    error := some "boom" } },
         { provider := "groq", modelId := "m2",
           run := { chunks := [.textDelta "ok"], finalText := "ok",
                    responseMessages := [], error := none } }] "auto" =
      .ok { provider := "groq", modelId := "m2", toolChoice := "auto",
            responseText := normalizedTextOf
              { chunks := [.textDelta "ok"], finalText := "ok",
                responseMessages := [], error := none }
            responseMessages := []
            usedFallback := true
            primaryErrorMessage := some "boom" } ∧
    executeWithProviderFallback
        [{ provider := "openrouter", modelId := "m1",
           run := { chunks := [.textDelta "Hi"], finalText := "",
                    responseMessages := [], error := some "boom" } },
         { provider := "groq", modelId := "m2",
           run := { chunks := [.textDelta "ok"], finalText := "ok",
                    responseMessages := [], error := none } }] "auto" =
      .error "boom" :=
  ⟨(c2_provider_fallback_gating
      { provider := "openrouter", modelId := "m1",
        run := { chunks := [], finalText := "", responseMessages := [],
                 error := some "boom" } }
      { provider := "groq", modelId := "m2",
        run := { chunks := [.textDelta "ok"], finalText := "ok",
                 responseMessages := [], error := none } } "auto" "boom"
      rfl).1 rfl,
   (c2_provider_fallback_gating
      { provider := "openrouter", modelId := "m1",
        run := { chunks := [.textDelta "Hi"], finalText := "",
                 responseMessages := [], error := some "boom" } }
      { provider := "groq", modelId := "m2",
        run := { chunks := [.textDelta "ok"], finalText := "ok",
                 responseMessages := [], error := none } } "auto" "boom"
      rfl).2 (by decide)⟩

end Spec2Proof
